import Mathlib

/-!
# Verification of the payment-channel engine (programming-lightning-payment-channels)

Shallow embedding of the repository's key-derivation and transaction-construction
engine, together with proofs settling the frozen claims C1..C10.

Conventions of the embedding:
* Bytes are `Nat` values `< 256`; byte strings are `List Nat`.
* Rust `u64`/`u32` arithmetic is `Nat` with explicit wrapping (`% 2 ^ 64` etc.)
  where overflow can occur; unchecked Rust subtraction that can underflow
  (a debug-mode panic) is modelled by an `Option` result (`none` = panic).
* `u64::saturating_sub` is exactly truncated `Nat` subtraction.
* secp256k1 public keys at the transaction/script layer are modelled by their
  33-byte compressed serializations (the code only ever feeds them to hashes
  and script builders); at the key-algebra layer (claims C5, C10) the curve
  group is modelled as an arbitrary additive commutative group with a
  generator whose order divides the secp256k1 group order `n` — exactly the
  interface the code assumes of the secp256k1 library.
-/

set_option maxRecDepth 100000

namespace PLPC

/-! ## SHA-256 (bitcoin_hashes::sha256, as used throughout the engine) -/

/-- Truncation to a 32-bit word. -/
def w32 (x : Nat) : Nat := x % 4294967296

/-- Right rotation of a 32-bit word by `n` places. -/
def rotr (n w : Nat) : Nat := ((w >>> n) ||| (w <<< (32 - n))) % 4294967296

/-- Big-endian byte serialization, `n` bytes. -/
def beBytes (n x : Nat) : List Nat :=
  (List.range n).map (fun i => (x >>> (8 * (n - 1 - i))) % 256)

/-- Group big-endian bytes into 32-bit words. -/
def bytesToWords : List Nat → List Nat
  | a :: b :: c :: d :: rest =>
      ((a <<< 24) ||| (b <<< 16) ||| (c <<< 8) ||| d) :: bytesToWords rest
  | _ => []

def sha256K : List Nat :=
  [1116352408, 1899447441, 3049323471, 3921009573, 961987163,
   1508970993, 2453635748, 2870763221, 3624381080, 310598401,
   607225278, 1426881987, 1925078388, 2162078206, 2614888103,
   3248222580, 3835390401, 4022224774, 264347078, 604807628,
   770255983, 1249150122, 1555081692, 1996064986, 2554220882,
   2821834349, 2952996808, 3210313671, 3336571891, 3584528711,
   113926993, 338241895, 666307205, 773529912, 1294757372,
   1396182291, 1695183700, 1986661051, 2177026350, 2456956037,
   2730485921, 2820302411, 3259730800, 3345764771, 3516065817,
   3600352804, 4094571909, 275423344, 430227734, 506948616,
   659060556, 883997877, 958139571, 1322822218, 1537002063,
   1747873779, 1955562222, 2024104815, 2227730452, 2361852424,
   2428436474, 2756734187, 3204031479, 3329325298]

def sha256H0 : List Nat :=
  [1779033703, 3144134277, 1013904242, 2773480762, 1359893119,
   2600822924, 528734635, 1541459225]

def smallSigma0 (x : Nat) : Nat := (rotr 7 x) ^^^ (rotr 18 x) ^^^ (x >>> 3)

def smallSigma1 (x : Nat) : Nat := (rotr 17 x) ^^^ (rotr 19 x) ^^^ (x >>> 10)

def bigSigma0 (x : Nat) : Nat := (rotr 2 x) ^^^ (rotr 13 x) ^^^ (rotr 22 x)

def bigSigma1 (x : Nat) : Nat := (rotr 6 x) ^^^ (rotr 11 x) ^^^ (rotr 25 x)

def chF (x y z : Nat) : Nat := (x &&& y) ^^^ ((4294967295 ^^^ x) &&& z)

def majF (x y z : Nat) : Nat := (x &&& y) ^^^ (x &&& z) ^^^ (y &&& z)

/-- One step of the message-schedule extension: append word `W[n]` computed
from `W[n-2]`, `W[n-7]`, `W[n-15]`, `W[n-16]`. -/
def schedStep (ws : List Nat) : List Nat :=
  let n := ws.length
  let w := fun i => ws.getD i 0
  ws ++ [w32 (smallSigma1 (w (n - 2)) + w (n - 7) + smallSigma0 (w (n - 15)) + w (n - 16))]

/-- Extend the 16 block words to the 64-word message schedule. -/
def schedule (ws : List Nat) : List Nat :=
  (List.range 48).foldl (fun acc _ => schedStep acc) ws

/-- One round of the SHA-256 compression function; the state is the word list
`[a, b, c, d, e, f, g, h]`. -/
def compressRound (st : List Nat) (ki wi : Nat) : List Nat :=
  match st with
  | [a, b, c, d, e, f, g, h] =>
      let t1 := w32 (h + bigSigma1 e + chF e f g + ki + wi)
      let t2 := w32 (bigSigma0 a + majF a b c)
      [w32 (t1 + t2), a, b, c, w32 (d + t1), e, f, g]
  | other => other

/-- Compress one 16-word block into the running hash state. -/
def compressBlock (h : List Nat) (block : List Nat) : List Nat :=
  let st := ((sha256K).zip (schedule block)).foldl
    (fun st kw => compressRound st kw.1 kw.2) h
  (h.zip st).map (fun p => w32 (p.1 + p.2))

/-- SHA-256 padding: `0x80`, zeros, then the 64-bit big-endian bit length. -/
def sha256pad (msg : List Nat) : List Nat :=
  let L := msg.length
  msg ++ [0x80] ++ List.replicate ((119 - L % 64) % 64) 0 ++ beBytes 8 (8 * L)

/-- SHA-256 of a byte string, as 32 big-endian digest bytes. -/
def sha256 (msg : List Nat) : List Nat :=
  let padded := sha256pad msg
  let nblocks := padded.length / 64
  let hfin := (List.range nblocks).foldl
    (fun h i => compressBlock h (bytesToWords ((padded.drop (64 * i)).take 64))) sha256H0
  hfin.foldr (fun w acc => beBytes 4 w ++ acc) []

/-! ## RIPEMD-160 (bitcoin_hashes::ripemd160 / hash160, used by the script builders) -/

/-- Left rotation of a 32-bit word by `n` places. -/
def rotl (n w : Nat) : Nat := ((w <<< n) ||| (w >>> (32 - n))) % 4294967296

/-- Little-endian byte serialization, `n` bytes. -/
def leBytes (n x : Nat) : List Nat :=
  (List.range n).map (fun i => (x >>> (8 * i)) % 256)

/-- Group little-endian bytes into 32-bit words. -/
def bytesToWordsLE : List Nat → List Nat
  | a :: b :: c :: d :: rest =>
      (a ||| (b <<< 8) ||| (c <<< 16) ||| (d <<< 24)) :: bytesToWordsLE rest
  | _ => []

def rmdRL : List Nat :=
  [0, 1, 2, 3, 4, 5, 6, 7, 8, 9, 10, 11, 12, 13, 14, 15,
   7, 4, 13, 1, 10, 6, 15, 3, 12, 0, 9, 5, 2, 14, 11, 8,
   3, 10, 14, 4, 9, 15, 8, 1, 2, 7, 0, 6, 13, 11, 5, 12,
   1, 9, 11, 10, 0, 8, 12, 4, 13, 3, 7, 15, 14, 5, 6, 2,
   4, 0, 5, 9, 7, 12, 2, 10, 14, 1, 3, 8, 11, 6, 15, 13]

def rmdRR : List Nat :=
  [5, 14, 7, 0, 9, 2, 11, 4, 13, 6, 15, 8, 1, 10, 3, 12,
   6, 11, 3, 7, 0, 13, 5, 10, 14, 15, 8, 12, 4, 9, 1, 2,
   15, 5, 1, 3, 7, 14, 6, 9, 11, 8, 12, 2, 10, 0, 4, 13,
   8, 6, 4, 1, 3, 11, 15, 0, 5, 12, 2, 13, 9, 7, 10, 14,
   12, 15, 10, 4, 1, 5, 8, 7, 6, 2, 13, 14, 0, 3, 9, 11]

def rmdSL : List Nat :=
  [11, 14, 15, 12, 5, 8, 7, 9, 11, 13, 14, 15, 6, 7, 9, 8,
   7, 6, 8, 13, 11, 9, 7, 15, 7, 12, 15, 9, 11, 7, 13, 12,
   11, 13, 6, 7, 14, 9, 13, 15, 14, 8, 13, 6, 5, 12, 7, 5,
   11, 12, 14, 15, 14, 15, 9, 8, 9, 14, 5, 6, 8, 6, 5, 12,
   9, 15, 5, 11, 6, 8, 13, 12, 5, 12, 13, 14, 11, 8, 5, 6]

def rmdSR : List Nat :=
  [8, 9, 9, 11, 13, 15, 15, 5, 7, 7, 8, 11, 14, 14, 12, 6,
   9, 13, 15, 7, 12, 8, 9, 11, 7, 7, 12, 7, 6, 15, 13, 11,
   9, 7, 15, 11, 8, 6, 6, 14, 12, 13, 5, 14, 13, 13, 7, 5,
   15, 5, 8, 11, 14, 14, 6, 14, 6, 9, 12, 9, 12, 5, 15, 8,
   8, 5, 12, 9, 12, 5, 14, 6, 8, 13, 6, 5, 15, 13, 11, 11]

/-- Boolean function of round `j / 16` on the left line (right line uses the
reversed order). -/
def rmdF (j x y z : Nat) : Nat :=
  if j < 16 then x ^^^ y ^^^ z
  else if j < 32 then (x &&& y) ||| ((4294967295 ^^^ x) &&& z)
  else if j < 48 then (x ||| (4294967295 ^^^ y)) ^^^ z
  else if j < 64 then (x &&& z) ||| (y &&& (4294967295 ^^^ z))
  else x ^^^ (y ||| (4294967295 ^^^ z))

def rmdKL (j : Nat) : Nat :=
  if j < 16 then 0 else if j < 32 then 0x5a827999 else if j < 48 then 0x6ed9eba1
  else if j < 64 then 0x8f1bbcdc else 0xa953fd4e

def rmdKR (j : Nat) : Nat :=
  if j < 16 then 0x50a28be6 else if j < 32 then 0x5c4dd124 else if j < 48 then 0x6d703ef3
  else if j < 64 then 0x7a6d76e9 else 0

/-- One step of a RIPEMD-160 line; the state is `[a, b, c, d, e]`. -/
def rmdStep (x : List Nat) (f : Nat → Nat → Nat → Nat → Nat)
    (r s : List Nat) (k : Nat → Nat) (st : List Nat) (j : Nat) : List Nat :=
  match st with
  | [a, b, c, d, e] =>
      let t := w32 (rotl (s.getD j 0) (w32 (a + f j b c d + x.getD (r.getD j 0) 0 + k j)) + e)
      [e, t, b, rotl 10 c, d]
  | other => other

/-- Compress one 16-word block into the running RIPEMD-160 state. -/
def rmdCompress (h : List Nat) (x : List Nat) : List Nat :=
  let l := (List.range 80).foldl (rmdStep x rmdF rmdRL rmdSL rmdKL) h
  let r := (List.range 80).foldl (rmdStep x (fun j => rmdF (79 - j)) rmdRR rmdSR rmdKR) h
  match h, l, r with
  | [h0, h1, h2, h3, h4], [al, bl, cl, dl, el], [ar, br, cr, dr, er] =>
      [w32 (h1 + cl + dr), w32 (h2 + dl + er), w32 (h3 + el + ar),
       w32 (h4 + al + br), w32 (h0 + bl + cr)]
  | _, _, _ => h

def rmdH0 : List Nat := [0x67452301, 0xefcdab89, 0x98badcfe, 0x10325476, 0xc3d2e1f0]

/-- RIPEMD-160 padding: `0x80`, zeros, then the 64-bit little-endian bit length. -/
def rmdPad (msg : List Nat) : List Nat :=
  let L := msg.length
  msg ++ [0x80] ++ List.replicate ((119 - L % 64) % 64) 0 ++ leBytes 8 (8 * L)

/-- RIPEMD-160 of a byte string, as 20 digest bytes. -/
def ripemd160 (msg : List Nat) : List Nat :=
  let padded := rmdPad msg
  let nblocks := padded.length / 64
  let hfin := (List.range nblocks).foldl
    (fun h i => rmdCompress h (bytesToWordsLE ((padded.drop (64 * i)).take 64))) rmdH0
  hfin.foldr (fun w acc => leBytes 4 w ++ acc) []

/-- `bitcoin_hashes::hash160`: RIPEMD-160 of SHA-256. -/
def hash160 (msg : List Nat) : List Nat := ripemd160 (sha256 msg)

/-! ## Bitcoin transaction model (the fields the engine reads and writes) -/

/-- A transaction input (`bitcoin::TxIn`). -/
structure TxIn where
  previous_output : List Nat × Nat
  script_sig : List Nat
  sequence : Nat
  witness : List (List Nat)
deriving Repr, DecidableEq

/-- A transaction output (`bitcoin::TxOut`). -/
structure TxOut where
  value : Nat
  script_pubkey : List Nat
deriving Repr, DecidableEq

/-- A transaction (`bitcoin::Transaction`), with the fields the engine uses. -/
structure Transaction where
  version : Int
  lock_time : Nat
  input : List TxIn
  output : List TxOut
deriving Repr, DecidableEq

/-! ## Script builders (src/exercises/scripts/commitment.rs, htlc.rs) -/

/-- Little-endian base-256 digits of `x`, most significant last, empty for 0
(fuel-indexed; 9 bytes of fuel covers every `u64`). -/
def natLEDigits : Nat → Nat → List Nat
  | 0, _ => []
  | _ + 1, 0 => []
  | fuel + 1, x => (x % 256) :: natLEDigits fuel (x / 256)

/-- `Builder::push_slice` for data shorter than `OP_PUSHDATA1`: a length byte
followed by the data (every slice the engine pushes is at most 33 bytes). -/
def push_slice (data : List Nat) : List Nat := data.length :: data

/-- `Builder::push_int` for the non-negative values the engine uses: `OP_0`
for 0, `OP_1..OP_16` for 1..16, otherwise a minimal little-endian script
integer (sign byte added when the top bit of the last digit is set). -/
def push_int (x : Nat) : List Nat :=
  if x = 0 then [0x00]
  else if x ≤ 16 then [0x50 + x]
  else
    let le := natLEDigits 9 x
    push_slice (if 128 ≤ le.getLastD 0 then le ++ [0] else le)

/-- Exercise 14 (`create_to_remote_script`): P2WPKH, `OP_0 <hash160(pubkey)>`. -/
def create_to_remote_script (remote_pubkey : List Nat) : List Nat :=
  push_int 0 ++ push_slice (hash160 remote_pubkey)

/-- Exercise 15 (`create_to_local_script`): `OP_IF <revocationpubkey> OP_ELSE
<to_self_delay> OP_CSV OP_DROP <local_delayedpubkey> OP_ENDIF OP_CHECKSIG`. -/
def create_to_local_script (revocation_pubkey local_delayedpubkey : List Nat)
    (to_self_delay : Nat) : List Nat :=
  [0x63] ++ push_slice revocation_pubkey ++ [0x67] ++ push_int to_self_delay ++
  [0xb2, 0x75] ++ push_slice local_delayedpubkey ++ [0x68, 0xac]

/-- Exercise 21 (`create_offered_htlc_script`): revocation-by-hash branch, then
remote-key-with-preimage / 2-of-2 branches. -/
def create_offered_htlc_script
    (revocation_pubkey local_htlcpubkey remote_htlcpubkey payment_hash : List Nat) :
    List Nat :=
  let payment_hash160 := ripemd160 payment_hash
  let revocation_pubkey_hash := hash160 revocation_pubkey
  [0x76, 0xa9] ++ push_slice revocation_pubkey_hash ++ [0x87, 0x63, 0xac, 0x67] ++
  push_slice remote_htlcpubkey ++ [0x7c, 0x82] ++ push_int 32 ++ [0x87, 0x64, 0x75] ++
  push_int 2 ++ [0x7c] ++ push_slice local_htlcpubkey ++ push_int 2 ++ [0xae, 0x67, 0xa9] ++
  push_slice payment_hash160 ++ [0x88, 0xac, 0x68, 0x68]

/-- Exercise 24 of the script section (`create_received_htlc_script`):
revocation-by-hash branch, preimage/2-of-2 branch, CLTV timeout branch. -/
def create_received_htlc_script
    (revocation_pubkey local_htlcpubkey remote_htlcpubkey payment_hash : List Nat)
    (cltv_expiry : Nat) : List Nat :=
  let payment_hash160 := ripemd160 payment_hash
  let revocation_pubkey_hash := hash160 revocation_pubkey
  [0x76, 0xa9] ++ push_slice revocation_pubkey_hash ++ [0x87, 0x63, 0xac, 0x67] ++
  push_slice remote_htlcpubkey ++ [0x7c, 0x82] ++ push_int 32 ++ [0x87, 0x63, 0xa9] ++
  push_slice payment_hash160 ++ [0x88] ++ push_int 2 ++ [0x7c] ++
  push_slice local_htlcpubkey ++ push_int 2 ++ [0xae, 0x67, 0x75] ++
  push_int cltv_expiry ++ [0xb1, 0x75, 0xac, 0x68, 0x68]

/-- `ScriptBuf::to_p2wsh`: `OP_0 <sha256(script)>`. -/
def to_p2wsh (script : List Nat) : List Nat := [0x00, 0x20] ++ sha256 script

/-! ## Fee model (src/exercises/transactions/fees.rs)

Rust `u64` multiplication and addition overflow panics in debug and wraps in
release; the fee definitions carry the release-mode `% 2 ^ 64` wrap explicitly,
and the theorems about them state the no-overflow bounds under which both
semantics agree. -/

def u64Mod : Nat := 18446744073709551616

/-- Exercise 18 (`calculate_commitment_tx_fee`):
`feerate_per_kw * (724 + 172 * num_untrimmed_htlcs) / 1000`. -/
def calculate_commitment_tx_fee (feerate_per_kw : Nat) (num_untrimmed_htlcs : Nat) : Nat :=
  (feerate_per_kw * (724 + 172 * num_untrimmed_htlcs) % u64Mod) / 1000

/-- `calculate_htlc_timeout_tx_fee`: weight 663. -/
def calculate_htlc_timeout_tx_fee (feerate_per_kw : Nat) : Nat :=
  (feerate_per_kw * 663 % u64Mod) / 1000

/-- `calculate_htlc_success_tx_fee`: weight 703. -/
def calculate_htlc_success_tx_fee (feerate_per_kw : Nat) : Nat :=
  (feerate_per_kw * 703 % u64Mod) / 1000

/-- Exercise 20 (`is_htlc_dust`): an HTLC is dust when its amount is below the
dust limit plus the fee of the transaction that would claim it; outbound HTLCs
price the timeout transaction, inbound HTLCs the success transaction. -/
def is_htlc_dust (htlc_amount_sat dust_limit_satoshis feerate_per_kw : Nat)
    (outbound_htlc : Bool) : Bool :=
  let htlc_tx_fee := if outbound_htlc then calculate_htlc_timeout_tx_fee feerate_per_kw
    else calculate_htlc_success_tx_fee feerate_per_kw
  htlc_amount_sat < (dust_limit_satoshis + htlc_tx_fee) % u64Mod

/-- Modelled from the spec: `calculate_htlc_tx_fee`, called by both HTLC
transaction builders (src/exercises/transactions/htlc.rs line 9), is absent
from the sources — only the timeout- and success-specific fee functions exist.
The spec says HTLC transactions use a fixed per-transaction-type weight; this
models the missing function with the success-path weight 703. -/
def calculate_htlc_tx_fee (feerate_per_kw : Nat) : Nat :=
  (feerate_per_kw * 703 % u64Mod) / 1000

/-! ## Commitment transaction assembly (src/exercises/transactions/commitment.rs) -/

/-- `crate::types::CommitmentKeys`, with each public key modelled by its
33-byte compressed serialization. -/
structure CommitmentKeys where
  per_commitment_point : List Nat
  revocation_key : List Nat
  local_htlc_key : List Nat
  remote_htlc_key : List Nat
  local_delayed_payment_key : List Nat
deriving Repr, DecidableEq

/-- `crate::types::OutputWithMetadata`. -/
structure OutputWithMetadata where
  value : Nat
  script : List Nat
  cltv_expiry : Option Nat
deriving Repr, DecidableEq

/-- Exercise 25 (`create_commitment_transaction_outputs`): to_remote (full
value) when `to_remote_value >= fee / 2`, then to_local (value minus the whole
fee) when `to_local_value >= fee / 2`.  `none` models the debug-mode `u64`
underflow panic of `to_local_value - fee`. -/
def create_commitment_transaction_outputs (to_local_value to_remote_value : Nat)
    (commitment_keys : CommitmentKeys) (remote_payment_basepoint : List Nat)
    (to_self_delay : Nat) (fee : Nat) : Option (List OutputWithMetadata) :=
  let outputs1 : List OutputWithMetadata :=
    if fee / 2 ≤ to_remote_value then
      [⟨to_remote_value, create_to_remote_script remote_payment_basepoint, none⟩]
    else []
  if fee / 2 ≤ to_local_value then
    if to_local_value < fee then none
    else some (outputs1 ++
      [⟨to_local_value - fee,
        to_p2wsh (create_to_local_script commitment_keys.revocation_key
          commitment_keys.local_delayed_payment_key to_self_delay), none⟩])
  else some outputs1

/-- Exercise 26 (`create_htlc_outputs`): offered HTLCs (no CLTV metadata),
then received HTLCs (CLTV metadata set). -/
def create_htlc_outputs (commitment_keys : CommitmentKeys)
    (offered_htlcs : List (Nat × List Nat))
    (received_htlcs : List (Nat × List Nat × Nat)) : List OutputWithMetadata :=
  offered_htlcs.map (fun oh =>
    ⟨oh.1, to_p2wsh (create_offered_htlc_script commitment_keys.revocation_key
      commitment_keys.local_htlc_key commitment_keys.remote_htlc_key oh.2), none⟩) ++
  received_htlcs.map (fun rh =>
    ⟨rh.1, to_p2wsh (create_received_htlc_script commitment_keys.revocation_key
      commitment_keys.local_htlc_key commitment_keys.remote_htlc_key rh.2.1 rh.2.2),
     some rh.2.2⟩)

/-- Rust `Ord` for `Vec<u8>`/script bytes: lexicographic, a strict prefix
sorting first. -/
def compareBytes : List Nat → List Nat → Ordering
  | [], [] => Ordering.eq
  | [], _ :: _ => Ordering.lt
  | _ :: _, [] => Ordering.gt
  | a :: as, b :: bs => (compare a b).then (compareBytes as bs)

/-- Rust `Ord` for `Option<u32>`: `None` sorts below every `Some`. -/
def compareOptNat : Option Nat → Option Nat → Ordering
  | Option.none, Option.none => Ordering.eq
  | Option.none, Option.some _ => Ordering.lt
  | Option.some _, Option.none => Ordering.gt
  | Option.some a, Option.some b => compare a b

/-- The comparator of `sort_outputs` (`Ord::cmp` on `u64`, then on the script
bytes, then on the optional CLTV expiry). -/
def cmpOutput (a b : OutputWithMetadata) : Ordering :=
  ((compare a.value b.value).then (compareBytes a.script b.script)).then
    (compareOptNat a.cltv_expiry b.cltv_expiry)

/-- `sort_outputs` (BOLT3/BIP69-style): Rust's stable `sort_by`, modelled by
the stable `List.mergeSort` under the comparator. -/
def sort_outputs (outputs : List OutputWithMetadata) : List OutputWithMetadata :=
  outputs.mergeSort (fun a b => cmpOutput a b ≠ Ordering.gt)

/-- `build_and_sort_all_outputs`: balance outputs, then HTLC outputs, one sort
over the combined list. -/
def build_and_sort_all_outputs (to_local_value to_remote_value : Nat)
    (commitment_keys : CommitmentKeys) (remote_payment_basepoint : List Nat)
    (to_self_delay : Nat) (fee : Nat)
    (offered_htlcs : List (Nat × List Nat))
    (received_htlcs : List (Nat × List Nat × Nat)) : Option (List OutputWithMetadata) :=
  (create_commitment_transaction_outputs to_local_value to_remote_value
      commitment_keys remote_payment_basepoint to_self_delay fee).map
    (fun outputs =>
      sort_outputs (outputs ++ create_htlc_outputs commitment_keys offered_htlcs received_htlcs))

/-- Exercise 28 (`create_commitment_transaction`): fee from the HTLC count,
all outputs built and sorted in one pass, single input spending the funding
outpoint with sequence `u32::MAX` and locktime zero. -/
def create_commitment_transaction (funding_outpoint : List Nat × Nat)
    (to_local_value to_remote_value : Nat) (commitment_keys : CommitmentKeys)
    (remote_payment_basepoint : List Nat) (to_self_delay : Nat) (feerate_per_kw : Nat)
    (offered_htlcs : List (Nat × List Nat))
    (received_htlcs : List (Nat × List Nat × Nat)) : Option Transaction :=
  let num_htlcs := offered_htlcs.length + received_htlcs.length
  let fee := calculate_commitment_tx_fee feerate_per_kw num_htlcs
  (build_and_sort_all_outputs to_local_value to_remote_value commitment_keys
      remote_payment_basepoint to_self_delay fee offered_htlcs received_htlcs).map
    (fun all_outputs =>
      { version := 2, lock_time := 0,
        input := [{ previous_output := funding_outpoint, script_sig := [],
                    sequence := 4294967295, witness := [] }],
        output := all_outputs.map (fun meta => ⟨meta.value, meta.script⟩) })

/-! ## HTLC transactions (src/exercises/transactions/htlc.rs) -/

/-- Exercise 28 of the HTLC section (`create_htlc_success_transaction`):
single input with sequence zero, no locktime, one to_local-style output whose
value is the HTLC amount minus the fee by `u64::saturating_sub` (truncated
`Nat` subtraction). -/
def create_htlc_success_transaction (htlc_outpoint : List Nat × Nat) (htlc_amount : Nat)
    (local_keys : CommitmentKeys) (to_self_delay : Nat) (feerate_per_kw : Nat) :
    Transaction :=
  let fee := calculate_htlc_tx_fee feerate_per_kw
  let output_amount := htlc_amount - fee
  { version := 2, lock_time := 0,
    input := [{ previous_output := htlc_outpoint, script_sig := [],
                sequence := 0, witness := [] }],
    output := [⟨output_amount,
      to_p2wsh (create_to_local_script local_keys.revocation_key
        local_keys.local_delayed_payment_key to_self_delay)⟩] }

/-- Exercise 29 (`create_htlc_timeout_transaction`): like the success
transaction but with the locktime set to the HTLC's CLTV expiry. -/
def create_htlc_timeout_transaction (htlc_outpoint : List Nat × Nat) (htlc_amount : Nat)
    (cltv_expiry : Nat) (local_keys : CommitmentKeys) (to_self_delay : Nat)
    (feerate_per_kw : Nat) : Transaction :=
  let fee := calculate_htlc_tx_fee feerate_per_kw
  let output_amount := htlc_amount - fee
  { version := 2, lock_time := cltv_expiry,
    input := [{ previous_output := htlc_outpoint, script_sig := [],
                sequence := 0, witness := [] }],
    output := [⟨output_amount,
      to_p2wsh (create_to_local_script local_keys.revocation_key
        local_keys.local_delayed_payment_key to_self_delay)⟩] }

/-! ## Commitment-number obscuring (src/exercises/transactions/commitment.rs) -/

/-- `crate::INITIAL_COMMITMENT_NUMBER = (1 << 48) - 1` (src/main.rs). -/
def INITIAL_COMMITMENT_NUMBER : Nat := (1 <<< 48) - 1

/-- Exercise 24 (`get_commitment_transaction_number_obscure_factor`):
SHA-256 of the two serialized payment basepoints, concatenation direction
chosen by `outbound_from_broadcaster`; the low 6 digest bytes (indices 26..31)
assembled big-endian. Basepoints are modelled by their 33-byte serializations. -/
def get_commitment_transaction_number_obscure_factor
    (broadcaster_payment_basepoint countersignatory_payment_basepoint : List Nat)
    (outbound_from_broadcaster : Bool) : Nat :=
  let res := sha256 (if outbound_from_broadcaster then
      broadcaster_payment_basepoint ++ countersignatory_payment_basepoint
    else
      countersignatory_payment_basepoint ++ broadcaster_payment_basepoint)
  ((res.getD 26 0) <<< (5 * 8)) ||| ((res.getD 27 0) <<< (4 * 8)) |||
  ((res.getD 28 0) <<< (3 * 8)) ||| ((res.getD 29 0) <<< (2 * 8)) |||
  ((res.getD 30 0) <<< (1 * 8)) ||| ((res.getD 31 0) <<< (0 * 8))

/-- Exercise 27 (`set_obscured_commitment_number`): XOR the obscure factor with
`INITIAL_COMMITMENT_NUMBER - commitment_number`, store `0x20 <<< 24` plus the
low 24 bits in the locktime and `0x80 <<< 24` plus the high 24 bits in the
first input's sequence.  `none` models the two panics of the Rust function:
`u64` underflow when `commitment_number > INITIAL_COMMITMENT_NUMBER` and the
`tx.input[0]` index when the transaction has no input; the `% 2 ^ 32` mirrors
the `as u32` cast. -/
def set_obscured_commitment_number (tx : Transaction) (commitment_number : Nat)
    (local_payment_basepoint remote_payment_basepoint : List Nat)
    (outbound_from_broadcaster : Bool) : Option Transaction :=
  let factor := get_commitment_transaction_number_obscure_factor
      local_payment_basepoint remote_payment_basepoint outbound_from_broadcaster
  if commitment_number ≤ INITIAL_COMMITMENT_NUMBER then
    let obscured := factor ^^^ (INITIAL_COMMITMENT_NUMBER - commitment_number)
    let locktime_value := ((0x20 : Nat) <<< (8 * 3)) ||| (obscured &&& 0xffffff)
    let sequence_value := ((0x80 : Nat) <<< (8 * 3)) ||| ((obscured >>> (3 * 8)) % 4294967296)
    match tx.input with
    | [] => none
    | i0 :: rest =>
        some { tx with lock_time := locktime_value,
                       input := { i0 with sequence := sequence_value } :: rest }
  else none

/-! ## Signature verification (src/exercises/signing.rs) -/

/-- Models `secp256k1::ecdsa::Signature::from_der` (library code): a strict
DER `SEQUENCE` of two `INTEGER`s — `0x30 len 0x02 rlen r 0x02 slen s` with
consistent lengths — returning the two integer byte strings. The empty string
and any string not of this shape are rejected. -/
def signature_from_der (bs : List Nat) : Option (List Nat × List Nat) :=
  match bs with
  | 0x30 :: len :: 0x02 :: rlen :: tail =>
      if len = tail.length + 2 ∧ rlen ≤ tail.length then
        match tail.drop rlen with
        | 0x02 :: slen :: tail2 =>
            if slen = tail2.length then some (tail.take rlen, tail2) else none
        | _ => none
      else none
  | _ => none

/-- Exercise 32 (`verify_signature`).  The BIP143 sighash computation and the
ECDSA check are library calls, abstracted as the parameters `p2wshSighash` and
`verify_ecdsa`; the repository function's own control flow is modelled
exactly.  `none` models its three panics: `.expect("Valid sighash")` on an
out-of-range input index, the `usize` underflow of
`&signature[..signature.len() - 1]` on an empty signature, and
`.expect("Valid signature")` on a malformed DER body. -/
def verify_signature (p2wshSighash : Transaction → Nat → List Nat → Nat → List Nat)
    (verify_ecdsa : List Nat × List Nat → List Nat → List Nat → Bool)
    (tx : Transaction) (input_index : Nat) (script : List Nat) (amount : Nat)
    (signature : List Nat) (pubkey : List Nat) : Option Bool :=
  if tx.input.length ≤ input_index then none
  else
    let sighash := p2wshSighash tx input_index script amount
    if signature.length = 0 then none
    else
      match signature_from_der (signature.take (signature.length - 1)) with
      | Option.none => none
      | Option.some sig => some (verify_ecdsa sig sighash pubkey)

/-! ## EC key tweaking (src/exercises/keys/commitment.rs)

The code uses secp256k1 only through its group interface: secret keys are
scalars mod the group order `n`, public keys are scalar multiples of the
generator, `combine`/`add_tweak`/`mul_tweak` are group sums and scalar
multiplications.  The embedding is therefore parametric in an additive
commutative group `P` with a generator `g` satisfying `n • g = 0` (true of
secp256k1, whose generator has order exactly `n`) and a serialization map
`ser` standing for 33-byte compressed serialization; the SHA-256 tweaks are
the concrete hash of the serialized points, exactly as in the code. -/

/-- The order of the secp256k1 group. -/
def secpOrder : Nat :=
  0xFFFFFFFFFFFFFFFFFFFFFFFFFFFFFFFEBAAEDCE6AF48A03BBFD25E8CD0364141

instance : NeZero secpOrder := ⟨by decide⟩

/-- A byte string read as a big-endian natural number
(`Scalar::from_be_bytes`). -/
def beNat (bs : List Nat) : Nat := bs.foldl (fun acc b => acc * 256 + b) 0

/-- A hash digest reduced to a scalar mod the group order. -/
def hashScalar (bs : List Nat) : ZMod secpOrder := (beNat (sha256 bs) : ZMod secpOrder)

/-- `PublicKey::from_secret_key`: the secret scalar times the generator. -/
def pubkey {P : Type} [AddCommGroup P] (g : P) (a : ZMod secpOrder) : P := a.val • g

/-- Exercise 8 (`derive_public_key`):
`basepoint + SHA256(per_commitment_point || basepoint) * G`. -/
def derive_public_key {P : Type} [AddCommGroup P] (g : P) (ser : P → List Nat)
    (basepoint per_commitment_point : P) : P :=
  basepoint + pubkey g (hashScalar (ser per_commitment_point ++ ser basepoint))

/-- Exercise 9 (`derive_private_key`):
`base_secret + SHA256(per_commitment_point || basepoint)`. -/
def derive_private_key {P : Type} [AddCommGroup P] (g : P) (ser : P → List Nat)
    (base_secret : ZMod secpOrder) (per_commitment_point : P) : ZMod secpOrder :=
  base_secret + hashScalar (ser per_commitment_point ++ ser (pubkey g base_secret))

/-- Exercise 11 (`derive_revocation_public_key`):
`revocation_basepoint * SHA256(revocation_basepoint || per_commitment_point)
 + per_commitment_point * SHA256(per_commitment_point || revocation_basepoint)`. -/
def derive_revocation_public_key {P : Type} [AddCommGroup P] (ser : P → List Nat)
    (revocation_basepoint per_commitment_point : P) : P :=
  let scalar1 := hashScalar (ser revocation_basepoint ++ ser per_commitment_point)
  let scalar2 := hashScalar (ser per_commitment_point ++ ser revocation_basepoint)
  scalar1.val • revocation_basepoint + scalar2.val • per_commitment_point

/-- Exercise 12 (`derive_revocation_private_key`):
`revocation_basepoint_secret * scalar1 + per_commitment_secret * scalar2`
with the same two hash scalars computed from the corresponding points. -/
def derive_revocation_private_key {P : Type} [AddCommGroup P] (g : P) (ser : P → List Nat)
    (revocation_basepoint_secret per_commitment_secret : ZMod secpOrder) :
    ZMod secpOrder :=
  let revocation_basepoint := pubkey g revocation_basepoint_secret
  let per_commitment_point := pubkey g per_commitment_secret
  let scalar1 := hashScalar (ser revocation_basepoint ++ ser per_commitment_point)
  let scalar2 := hashScalar (ser per_commitment_point ++ ser revocation_basepoint)
  revocation_basepoint_secret * scalar1 + per_commitment_secret * scalar2

/-! ## Commitment-secret chain (src/exercises/keys/commitment.rs) -/

/-- Flip bit `bitpos % 8` of byte `bitpos / 8` of the buffer
(`res[bitpos / 8] ^= 1 << (bitpos & 7)`). -/
def flipBit (res : List Nat) (bitpos : Nat) : List Nat :=
  res.set (bitpos / 8) ((res.getD (bitpos / 8) 0) ^^^ ((1 : Nat) <<< (bitpos % 8)))

/-- Exercise 6 (`ChannelKeys::build_commitment_secret`): start from the seed;
for `i` in `0..48` with `bitpos = 47 - i`, if bit `bitpos` of the commitment
number is set, flip that bit of the buffer and replace the buffer by its
SHA-256 hash. -/
def build_commitment_secret (commitment_seed : List Nat) (commitment_number : Nat) :
    List Nat :=
  (List.range 48).foldl
    (fun res i =>
      let bitpos := 47 - i
      if commitment_number &&& ((1 : Nat) <<< bitpos) = (1 : Nat) <<< bitpos then
        sha256 (flipBit res bitpos)
      else res)
    commitment_seed

/-- The commitment-secret algorithm in the spec's words: scanning the 48 bits
of the index from bit 47 down to bit 0, if the bit is set, flip the
corresponding bit of the running buffer (byte `bitpos / 8`, bit `bitpos % 8`)
and replace the buffer with its SHA-256 hash. -/
def commitment_secret_spec (seed : List Nat) (index : Nat) : List Nat :=
  ((List.range 48).reverse).foldl
    (fun buf bitpos => if index.testBit bitpos then sha256 (flipBit buf bitpos) else buf)
    seed

/-- Modelled from the spec: the spec's round-trip property speaks of "decoding
the locktime/sequence pair with the same basepoints"; no decoder exists in the
sources.  The decoder inverting the code's encoding: reassemble the 24-bit
halves (sequence holds the upper half, locktime the lower), XOR with the
obscure factor, subtract from `INITIAL_COMMITMENT_NUMBER`. -/
def decode_obscured_commitment_number (lock_time sequence factor : Nat) : Nat :=
  INITIAL_COMMITMENT_NUMBER -
    ((((sequence &&& 0xffffff) <<< 24) ||| (lock_time &&& 0xffffff)) ^^^ factor)

/-- The BOLT3 Appendix C local payment basepoint
(`034f355bdcb7cc0af728ef3cceb9615d90684bb5b2ca5f859ab0f0b704075871aa`). -/
def bolt3_local_payment_basepoint : List Nat :=
  [0x03, 0x4f, 0x35, 0x5b, 0xdc, 0xb7, 0xcc, 0x0a, 0xf7, 0x28, 0xef, 0x3c, 0xce,
   0xb9, 0x61, 0x5d, 0x90, 0x68, 0x4b, 0xb5, 0xb2, 0xca, 0x5f, 0x85, 0x9a, 0xb0,
   0xf0, 0xb7, 0x04, 0x07, 0x58, 0x71, 0xaa]

/-- The BOLT3 Appendix C remote payment basepoint
(`032c0b7cf95324a07d05398b240174dc0c2be444d96b159aa6c7f7b1e668680991`). -/
def bolt3_remote_payment_basepoint : List Nat :=
  [0x03, 0x2c, 0x0b, 0x7c, 0xf9, 0x53, 0x24, 0xa0, 0x7d, 0x05, 0x39, 0x8b, 0x24,
   0x01, 0x74, 0xdc, 0x0c, 0x2b, 0xe4, 0x44, 0xd9, 0x6b, 0x15, 0x9a, 0xa6, 0xc7,
   0xf7, 0xb1, 0xe6, 0x68, 0x68, 0x09, 0x91]

/-! # Theorems settling the claims -/

/-! ## C6: dust trimming -/

/-- C6: `is_htlc_dust` reports an HTLC as trimmed exactly when its amount is
strictly below `dust_limit + htlc_tx_fee(direction)`, where an offered
(outbound) HTLC prices the timeout transaction at weight 663 and a received
(inbound) HTLC the success transaction at weight 703; an HTLC of amount
exactly `dust_limit + fee` is retained and one satoshi less is trimmed.  The
two bounds hypotheses exclude `u64` overflow of the fee arithmetic (where
debug-mode Rust panics instead). -/
theorem is_htlc_dust_boundary (a d f : Nat) (o : Bool)
    (hmul : f * 703 < u64Mod) (hsum : d + f * 703 / 1000 < u64Mod) :
    (is_htlc_dust a d f o = true ↔
      a < d + (if o then f * 663 / 1000 else f * 703 / 1000)) ∧
    is_htlc_dust (d + (if o then f * 663 / 1000 else f * 703 / 1000)) d f o = false ∧
    (0 < d + (if o then f * 663 / 1000 else f * 703 / 1000) →
      is_htlc_dust (d + (if o then f * 663 / 1000 else f * 703 / 1000) - 1) d f o = true) := by
  have h663 : f * 663 < u64Mod :=
    lt_of_le_of_lt (Nat.mul_le_mul (le_refl f) (by norm_num)) hmul
  have hsum663 : d + f * 663 / 1000 < u64Mod :=
    lt_of_le_of_lt (Nat.add_le_add_left (Nat.div_le_div_right
      (Nat.mul_le_mul (le_refl f) (by norm_num))) d) hsum
  cases o with
  | false =>
      simp [is_htlc_dust, calculate_htlc_success_tx_fee, calculate_htlc_timeout_tx_fee,
        Nat.mod_eq_of_lt hmul, Nat.mod_eq_of_lt hsum]
  | true =>
      simp [is_htlc_dust, calculate_htlc_success_tx_fee, calculate_htlc_timeout_tx_fee,
        Nat.mod_eq_of_lt h663, Nat.mod_eq_of_lt hsum663]

/-- Witness for C6 at amount 0, dust limit 546, feerate 5000, outbound. -/
theorem is_htlc_dust_boundary_witness :
    (5000 * 703 < u64Mod) ∧ (546 + 5000 * 703 / 1000 < u64Mod) ∧
    ((is_htlc_dust 0 546 5000 true = true ↔
        0 < 546 + (if true then 5000 * 663 / 1000 else 5000 * 703 / 1000)) ∧
      is_htlc_dust (546 + (if true then 5000 * 663 / 1000 else 5000 * 703 / 1000))
        546 5000 true = false ∧
      (0 < 546 + (if true then 5000 * 663 / 1000 else 5000 * 703 / 1000) →
        is_htlc_dust (546 + (if true then 5000 * 663 / 1000 else 5000 * 703 / 1000) - 1)
          546 5000 true = true)) :=
  ⟨by decide, by decide, is_htlc_dust_boundary 0 546 5000 true (by decide) (by decide)⟩

/-! ## C5 and C10: key-derivation symmetry -/

/-- Scalar multiples of the generator only depend on the scalar mod the group
order. -/
theorem nsmul_mod_order {P : Type} [AddCommGroup P] (g : P)
    (hg : secpOrder • g = 0) (k : Nat) : (k % secpOrder) • g = k • g := by
  conv_rhs => rw [← Nat.mod_add_div k secpOrder]
  rw [add_nsmul, mul_nsmul g secpOrder (k / secpOrder), hg, smul_zero, add_zero]

/-- `pubkey` turns scalar addition into the group sum. -/
theorem pubkey_add {P : Type} [AddCommGroup P] (g : P) (hg : secpOrder • g = 0)
    (x y : ZMod secpOrder) : pubkey g (x + y) = pubkey g x + pubkey g y := by
  unfold pubkey
  rw [ZMod.val_add, nsmul_mod_order g hg, add_nsmul]

/-- `pubkey` turns scalar multiplication into scalar multiplication of the
point. -/
theorem pubkey_mul {P : Type} [AddCommGroup P] (g : P) (hg : secpOrder • g = 0)
    (x y : ZMod secpOrder) : pubkey g (x * y) = y.val • pubkey g x := by
  unfold pubkey
  rw [ZMod.val_mul, nsmul_mod_order g hg, mul_nsmul g (ZMod.val x) (ZMod.val y)]

/-- C10: the single-tweak derivations agree — the public key of
`derive_private_key(base_secret, per_commitment_point)` is
`derive_public_key(basepoint, per_commitment_point)` at the corresponding
basepoint, in any model of the secp256k1 group (an additive commutative group
whose generator `g` satisfies `n • g = 0`). -/
theorem derive_key_consistency {P : Type} [AddCommGroup P] (g : P)
    (hg : secpOrder • g = 0) (ser : P → List Nat) (base_secret : ZMod secpOrder)
    (per_commitment_point : P) :
    pubkey g (derive_private_key g ser base_secret per_commitment_point) =
      derive_public_key g ser (pubkey g base_secret) per_commitment_point := by
  unfold derive_private_key derive_public_key
  rw [pubkey_add g hg]

/-- Witness for C10 in the model `P = ZMod n`, `g = 1`, at base secret 2. -/
theorem derive_key_consistency_witness :
    (secpOrder • (1 : ZMod secpOrder) = 0) ∧
    pubkey (1 : ZMod secpOrder)
        (derive_private_key (1 : ZMod secpOrder) (fun _ => []) 2
          (pubkey (1 : ZMod secpOrder) 5)) =
      derive_public_key (1 : ZMod secpOrder) (fun _ => [])
        (pubkey (1 : ZMod secpOrder) 2) (pubkey (1 : ZMod secpOrder) 5) := by
  have hg : secpOrder • (1 : ZMod secpOrder) = 0 := by
    rw [nsmul_eq_mul, mul_one]
    exact ZMod.natCast_self secpOrder
  exact ⟨hg, derive_key_consistency (1 : ZMod secpOrder) hg (fun _ => []) 2
    (pubkey (1 : ZMod secpOrder) 5)⟩

/-- C5: revocation-key symmetry — the public key of
`derive_revocation_private_key(revocation_basepoint_secret,
per_commitment_secret)` equals
`derive_revocation_public_key(revocation_basepoint, per_commitment_point)` at
the corresponding public points, whose derivation is
`revocation_basepoint·SHA256(revocation_basepoint ‖ per_commitment_point) +
per_commitment_point·SHA256(per_commitment_point ‖ revocation_basepoint)`, in
any model of the secp256k1 group. -/
theorem revocation_symmetry {P : Type} [AddCommGroup P] (g : P)
    (hg : secpOrder • g = 0) (ser : P → List Nat)
    (revocation_basepoint_secret per_commitment_secret : ZMod secpOrder) :
    pubkey g (derive_revocation_private_key g ser revocation_basepoint_secret
        per_commitment_secret) =
      derive_revocation_public_key ser (pubkey g revocation_basepoint_secret)
        (pubkey g per_commitment_secret) := by
  unfold derive_revocation_private_key derive_revocation_public_key
  rw [pubkey_add g hg, pubkey_mul g hg, pubkey_mul g hg]

/-- Witness for C5 in the model `P = ZMod n`, `g = 1`, at secrets 2 and 3. -/
theorem revocation_symmetry_witness :
    (secpOrder • (1 : ZMod secpOrder) = 0) ∧
    pubkey (1 : ZMod secpOrder)
        (derive_revocation_private_key (1 : ZMod secpOrder) (fun _ => []) 2 3) =
      derive_revocation_public_key (fun _ => [])
        (pubkey (1 : ZMod secpOrder) 2) (pubkey (1 : ZMod secpOrder) 3) := by
  have hg : secpOrder • (1 : ZMod secpOrder) = 0 := by
    rw [nsmul_eq_mul, mul_one]
    exact ZMod.natCast_self secpOrder
  exact ⟨hg, revocation_symmetry (1 : ZMod secpOrder) hg (fun _ => []) 2 3⟩

/-! ## C4: out-of-range commitment indices -/

/-- A bit test written as the code writes it (`n & (1 << k) == (1 << k)`) is
`Nat.testBit`. -/
theorem and_one_shift_eq_testBit (n k : Nat) :
    (n &&& ((1 : Nat) <<< k) = (1 : Nat) <<< k) ↔ n.testBit k = true := by
  rw [Nat.shiftLeft_eq, one_mul, Nat.and_two_pow]
  cases h : n.testBit k
  · have h2 : (0 : Nat) ≠ 2 ^ k := (Nat.pos_iff_ne_zero.mp (Nat.two_pow_pos k)).symm
    simp [h2]
  · simp

/-- C4 counterexample: at index `2 ^ 48` the derivation returns a secret
normally — the same secret as at index `2 ^ 48 % 2 ^ 48 = 0`, namely the seed
itself — instead of rejecting the out-of-range index. -/
theorem commitment_secret_truncation_counterexample :
    build_commitment_secret (List.replicate 32 0) (2 ^ 48) =
      build_commitment_secret (List.replicate 32 0) (2 ^ 48 % 2 ^ 48) ∧
    build_commitment_secret (List.replicate 32 0) (2 ^ 48) = List.replicate 32 0 := by
  decide

/-- C4 amended: `build_commitment_secret` never rejects an index at or above
`2 ^ 48`; it reads only the low 48 bits, i.e. silently truncates the index
mod `2 ^ 48`. -/
theorem build_commitment_secret_truncates (seed : List Nat) (i : Nat) :
    build_commitment_secret seed i = build_commitment_secret seed (i % 2 ^ 48) := by
  unfold build_commitment_secret
  apply List.foldl_ext
  intro acc e he
  have hb : 47 - e < 48 := by omega
  have hco : (i % 2 ^ 48).testBit (47 - e) = i.testBit (47 - e) := by
    rw [Nat.testBit_mod_two_pow]
    simp [hb]
  simp only [and_one_shift_eq_testBit, hco]

/-! ## C8: satoshi arithmetic in transaction assembly -/

/-- C8 counterexample: an HTLC-success transaction whose fee (703 sat at
feerate 1000) exceeds the HTLC amount (100 sat) is produced with its output
value silently clamped to zero by `saturating_sub` — no error is raised. -/
theorem htlc_fee_clamp_counterexample :
    100 < calculate_htlc_tx_fee 1000 ∧
    (create_htlc_success_transaction ([], 0) 100 ⟨[], [], [], [], []⟩ 144 1000).output.map
        TxOut.value = [0] := by
  decide

/-- C8 amended: the HTLC-success and HTLC-timeout builders clamp the output
value with `u64::saturating_sub` (zero whenever the fee is at least the HTLC
amount) and never return an error, while the commitment builder's unchecked
`to_local_value - fee` panics (modelled `none`) whenever
`fee / 2 ≤ to_local_value < fee`; no builder reports subtraction overflow as
an error result. -/
theorem satoshi_arithmetic_clamping
    (op : List Nat × Nat) (amt cltv : Nat) (keys : CommitmentKeys)
    (delay f tl tr : Nat) (rb : List Nat) (fee : Nat) :
    (create_htlc_success_transaction op amt keys delay f).output.map TxOut.value =
      [amt - calculate_htlc_tx_fee f] ∧
    (create_htlc_timeout_transaction op amt cltv keys delay f).output.map TxOut.value =
      [amt - calculate_htlc_tx_fee f] ∧
    (fee / 2 ≤ tl → tl < fee →
      create_commitment_transaction_outputs tl tr keys rb delay fee = none) := by
  refine ⟨rfl, rfl, fun h1 h2 => ?_⟩
  unfold create_commitment_transaction_outputs
  rw [if_pos h1, if_pos h2]

/-- Witness for C8 (amended) at `fee = 724`, `to_local_value = 400`. -/
theorem satoshi_arithmetic_clamping_witness :
    (724 / 2 ≤ 400) ∧ (400 < 724) ∧
    (create_htlc_success_transaction ([], 0) 100 ⟨[], [], [], [], []⟩ 144
        1000).output.map TxOut.value = [100 - calculate_htlc_tx_fee 1000] ∧
    create_commitment_transaction_outputs 400 0 ⟨[], [], [], [], []⟩ [] 144 724 = none :=
  ⟨by decide, by decide,
    (satoshi_arithmetic_clamping ([], 0) 100 0 ⟨[], [], [], [], []⟩ 144 1000 400 0 [] 724).1,
    (satoshi_arithmetic_clamping ([], 0) 100 0 ⟨[], [], [], [], []⟩ 144 1000 400 0 [] 724).2.2
      (by decide) (by decide)⟩

/-! ## C9: signature verification error handling -/

/-- C9: evaluating `verify_signature` at a malformed signature — the one-byte
string `[0x01]`, whose DER body after stripping the sighash-type byte is
empty — the function panics (`none`, from `.expect("Valid signature")`)
instead of returning the boolean `false` to the caller. -/
theorem verify_signature_malformed_der_panics :
    verify_signature (fun _ _ _ _ => []) (fun _ _ _ => false)
        ⟨2, 0, [⟨([], 0), [], 0, []⟩], []⟩ 0 [] 0 [0x01] [] = none ∧
    verify_signature (fun _ _ _ _ => []) (fun _ _ _ => false)
        ⟨2, 0, [⟨([], 0), [], 0, []⟩], []⟩ 0 [] 0 [0x01] [] ≠ some false := by
  decide

/-! ## C2: commitment outputs and the missing dust limit -/

/-- C2 counterexample: inclusion of the to_remote output depends on the
feerate (threshold `fee / 2`), not on any fixed dust limit.  With balances
`to_local = 100`, `to_remote = 1000` and zero HTLCs, the builder emits one
output at feerate 1000 and none at feerate 4000; under the claim the output
count would be the same for every dust limit, whichever way the fee is
accounted. -/
theorem commitment_outputs_dust_counterexample :
    ¬ ∃ dust : Nat, ∀ feerate to_local_value to_remote_value : Nat,
        (create_commitment_transaction_outputs to_local_value to_remote_value
            ⟨[], [], [], [], []⟩ [] 144
            (calculate_commitment_tx_fee feerate 0)).map List.length =
          some ((if dust ≤ to_remote_value then 1 else 0) +
            (if dust ≤ to_local_value - calculate_commitment_tx_fee feerate 0 then 1
             else 0)) := by
  rintro ⟨dust, h⟩
  have h1 := h 1000 100 1000
  have h2 := h 4000 100 1000
  rw [show calculate_commitment_tx_fee 1000 0 = 724 from by decide] at h1
  rw [show calculate_commitment_tx_fee 4000 0 = 2896 from by decide] at h2
  rw [show (create_commitment_transaction_outputs 100 1000 ⟨[], [], [], [], []⟩ [] 144
      724).map List.length = some 1 from by decide] at h1
  rw [show (create_commitment_transaction_outputs 100 1000 ⟨[], [], [], [], []⟩ [] 144
      2896).map List.length = some 0 from by decide] at h2
  rw [show (100 : Nat) - 724 = 0 from by decide] at h1
  rw [show (100 : Nat) - 2896 = 0 from by decide] at h2
  rw [Option.some.injEq] at h1 h2
  omega

/-- C2 amended: the inclusion thresholds are `fee / 2` applied to the pre-fee
balances (there is no dust-limit parameter); the to_remote output keeps its
full value and the whole fee is subtracted from the to_local balance alone;
when `fee / 2 ≤ to_local_value < fee` that subtraction underflows and the
builder panics (`none`) instead of producing outputs. -/
theorem create_commitment_outputs_fee_split (tl tr : Nat) (keys : CommitmentKeys)
    (rb : List Nat) (delay fee : Nat) :
    (fee ≤ tl ∨ tl < fee / 2 →
      create_commitment_transaction_outputs tl tr keys rb delay fee =
        some ((if fee / 2 ≤ tr then [⟨tr, create_to_remote_script rb, Option.none⟩] else []) ++
          (if fee / 2 ≤ tl then
            [⟨tl - fee,
              to_p2wsh (create_to_local_script keys.revocation_key
                keys.local_delayed_payment_key delay), Option.none⟩]
           else []))) ∧
    (fee / 2 ≤ tl → tl < fee →
      create_commitment_transaction_outputs tl tr keys rb delay fee = none) := by
  constructor
  · intro hcase
    unfold create_commitment_transaction_outputs
    rcases Nat.lt_or_ge tl (fee / 2) with hlt | hge
    · have hnle : ¬ fee / 2 ≤ tl := by omega
      rw [if_neg hnle]
      simp [hnle]
    · have hfle : fee ≤ tl := by
        rcases hcase with h | h
        · exact h
        · omega
      rw [if_pos hge, if_neg (show ¬ tl < fee from by omega)]
      simp [hge]
  · intro h1 h2
    unfold create_commitment_transaction_outputs
    rw [if_pos h1, if_pos h2]

/-- Witness for C2 (amended) at `to_local = 1000`, `to_remote = 500`,
`fee = 724`. -/
theorem create_commitment_outputs_fee_split_witness :
    ((724 ≤ 1000 ∨ 1000 < 724 / 2) ∧
      create_commitment_transaction_outputs 1000 500 ⟨[], [], [], [], []⟩ [] 144 724 =
        some ((if 724 / 2 ≤ 500 then
            [⟨500, create_to_remote_script [], Option.none⟩] else []) ++
          (if 724 / 2 ≤ 1000 then
            [⟨1000 - 724,
              to_p2wsh (create_to_local_script (⟨[], [], [], [], []⟩ :
                CommitmentKeys).revocation_key
                (⟨[], [], [], [], []⟩ : CommitmentKeys).local_delayed_payment_key 144),
              Option.none⟩]
           else []))) ∧
    ((724 / 2 ≤ 400) → (400 < 724) →
      create_commitment_transaction_outputs 400 500 ⟨[], [], [], [], []⟩ [] 144 724 =
        none) :=
  ⟨⟨Or.inl (by decide),
    (create_commitment_outputs_fee_split 1000 500 ⟨[], [], [], [], []⟩ [] 144 724).1
      (Or.inl (by decide))⟩,
   fun ha hb =>
    (create_commitment_outputs_fee_split 400 500 ⟨[], [], [], [], []⟩ [] 144 724).2 ha hb⟩

/-! ## C7: output ordering -/

/-- `Ord Nat`'s compare is symmetric (specialization avoiding instance
ambiguity). -/
theorem compareNat_symm (x y : Nat) : (compare x y).swap = compare y x :=
  Batteries.OrientedCmp.symm x y

theorem compareNat_eq_iff (x y : Nat) : compare x y = Ordering.eq ↔ x = y :=
  Batteries.BEqCmp.cmp_iff_eq

theorem compareNat_lt_trans {x y z : Nat} (h1 : compare x y = Ordering.lt)
    (h2 : compare y z = Ordering.lt) : compare x z = Ordering.lt :=
  Batteries.TransCmp.lt_trans h1 h2

theorem compareBytes_symm (a b : List Nat) : (compareBytes a b).swap = compareBytes b a := by
  induction a generalizing b with
  | nil => cases b <;> rfl
  | cons x xs ih =>
      cases b with
      | nil => rfl
      | cons y ys =>
          show ((compare x y).then (compareBytes xs ys)).swap =
            (compare y x).then (compareBytes ys xs)
          rw [Ordering.swap_then, ih, compareNat_symm x y]

theorem compareBytes_eq_iff (a b : List Nat) : compareBytes a b = Ordering.eq ↔ a = b := by
  induction a generalizing b with
  | nil => cases b <;> simp [compareBytes]
  | cons x xs ih =>
      cases b with
      | nil => simp [compareBytes]
      | cons y ys =>
          show (compare x y).then (compareBytes xs ys) = Ordering.eq ↔ _
          rw [Ordering.then_eq_eq, ih, compareNat_eq_iff]
          simp

/-- Decomposition of `≤` (that is, `≠ gt`) for a lexicographic step. -/
theorem then_ne_gt {o1 o2 : Ordering} :
    o1.then o2 ≠ Ordering.gt ↔ o1 = Ordering.lt ∨ (o1 = Ordering.eq ∧ o2 ≠ Ordering.gt) := by
  cases o1 <;> simp [Ordering.then]

theorem compareBytes_le_trans :
    ∀ {a b c : List Nat}, compareBytes a b ≠ Ordering.gt →
      compareBytes b c ≠ Ordering.gt → compareBytes a c ≠ Ordering.gt := by
  intro a
  induction a with
  | nil => intro b c _ _; cases c <;> simp [compareBytes]
  | cons x xs ih =>
      intro b c h1 h2
      cases b with
      | nil => simp [compareBytes] at h1
      | cons y ys =>
          cases c with
          | nil => simp [compareBytes] at h2
          | cons z zs =>
              rw [show compareBytes (x :: xs) (y :: ys) =
                (compare x y).then (compareBytes xs ys) from rfl, then_ne_gt] at h1
              rw [show compareBytes (y :: ys) (z :: zs) =
                (compare y z).then (compareBytes ys zs) from rfl, then_ne_gt] at h2
              rw [show compareBytes (x :: xs) (z :: zs) =
                (compare x z).then (compareBytes xs zs) from rfl, then_ne_gt]
              rcases h1 with h1 | ⟨h1e, h1t⟩
              · rcases h2 with h2 | ⟨h2e, h2t⟩
                · exact Or.inl (compareNat_lt_trans h1 h2)
                · have := (compareNat_eq_iff y z).mp h2e
                  subst this
                  exact Or.inl h1
              · have := (compareNat_eq_iff x y).mp h1e
                subst this
                rcases h2 with h2 | ⟨h2e, h2t⟩
                · exact Or.inl h2
                · exact Or.inr ⟨h2e, ih h1t h2t⟩

theorem compareOptNat_symm (a b : Option Nat) : (compareOptNat a b).swap = compareOptNat b a := by
  cases a with
  | none => cases b <;> rfl
  | some x =>
      cases b with
      | none => rfl
      | some y => exact compareNat_symm x y

theorem compareOptNat_eq_iff (a b : Option Nat) :
    compareOptNat a b = Ordering.eq ↔ a = b := by
  cases a <;> cases b <;>
    simp [compareOptNat, compareNat_eq_iff]

theorem compareOptNat_le_trans :
    ∀ {a b c : Option Nat}, compareOptNat a b ≠ Ordering.gt →
      compareOptNat b c ≠ Ordering.gt → compareOptNat a c ≠ Ordering.gt := by
  intro a b c h1 h2
  cases a with
  | none => cases c <;> simp [compareOptNat]
  | some x =>
      cases b with
      | none => simp [compareOptNat] at h1
      | some y =>
          cases c with
          | none => simp [compareOptNat] at h2
          | some z =>
              simp only [compareOptNat] at h1 h2 ⊢
              exact Batteries.TransCmp.le_trans h1 h2

/-- The output comparator is symmetric (swapping the arguments swaps the
result). -/
theorem cmpOutput_symm (a b : OutputWithMetadata) :
    (cmpOutput a b).swap = cmpOutput b a := by
  unfold cmpOutput
  rw [Ordering.swap_then, Ordering.swap_then, Batteries.OrientedCmp.symm a.value b.value,
    compareBytes_symm, compareOptNat_symm]

/-- The output comparator returns `eq` exactly on equal outputs. -/
theorem cmpOutput_eq_iff (a b : OutputWithMetadata) :
    cmpOutput a b = Ordering.eq ↔ a = b := by
  unfold cmpOutput
  rw [Ordering.then_eq_eq, Ordering.then_eq_eq,
    compareNat_eq_iff, compareBytes_eq_iff, compareOptNat_eq_iff]
  cases a
  cases b
  simp [and_assoc]

theorem transCmp_compareBytes : Batteries.TransCmp compareBytes :=
  { toOrientedCmp := { symm := compareBytes_symm }, le_trans := compareBytes_le_trans }

theorem transCmp_compareOptNat : Batteries.TransCmp compareOptNat :=
  { toOrientedCmp := { symm := compareOptNat_symm }, le_trans := compareOptNat_le_trans }

/-- A lawful comparator pulled back along a projection stays lawful. -/
theorem transCmp_on {α β : Type} {cmp : β → β → Ordering} (h : Batteries.TransCmp cmp)
    (f : α → β) : Batteries.TransCmp (fun a b => cmp (f a) (f b)) :=
  { toOrientedCmp := { symm := fun a b => h.symm (f a) (f b) },
    le_trans := fun h1 h2 => h.le_trans h1 h2 }

/-- The output comparator is a lawful (oriented, transitive) comparator: it is
the lexicographic composition of three lawful comparators. -/
theorem transCmp_cmpOutput : Batteries.TransCmp cmpOutput := by
  haveI i1 : Batteries.TransCmp (fun a b : OutputWithMetadata => compare a.value b.value) :=
    transCmp_on inferInstance (fun o : OutputWithMetadata => o.value)
  haveI i2 : Batteries.TransCmp
      (fun a b : OutputWithMetadata => compareBytes a.script b.script) :=
    transCmp_on transCmp_compareBytes (fun o : OutputWithMetadata => o.script)
  haveI i3 : Batteries.TransCmp
      (fun a b : OutputWithMetadata => compareOptNat a.cltv_expiry b.cltv_expiry) :=
    transCmp_on transCmp_compareOptNat (fun o : OutputWithMetadata => o.cltv_expiry)
  exact inferInstanceAs (Batteries.TransCmp
    (compareLex (compareLex (fun a b : OutputWithMetadata => compare a.value b.value)
        (fun a b => compareBytes a.script b.script))
      (fun a b => compareOptNat a.cltv_expiry b.cltv_expiry)))

/-- C7: the output comparison (value, then script bytes, then CLTV expiry
with `None` lowest) is a total order — `eq` exactly on equal outputs,
antisymmetric under swapping, and transitive on `≤` — re-sorting an
already-sorted list is a no-op, and `build_and_sort_all_outputs` applies the
sort once to the full combined output set (balance outputs and all HTLC
outputs together), not per category. -/
theorem output_ordering_total_and_single_pass :
    (∀ a b : OutputWithMetadata, cmpOutput a b = Ordering.eq ↔ a = b) ∧
    (∀ a b : OutputWithMetadata, (cmpOutput a b).swap = cmpOutput b a) ∧
    (∀ a b c : OutputWithMetadata, cmpOutput a b ≠ Ordering.gt →
      cmpOutput b c ≠ Ordering.gt → cmpOutput a c ≠ Ordering.gt) ∧
    (∀ l : List OutputWithMetadata,
      l.Pairwise (fun a b => cmpOutput a b ≠ Ordering.gt) → sort_outputs l = l) ∧
    (∀ tl tr keys rb delay fee offered received,
      build_and_sort_all_outputs tl tr keys rb delay fee offered received =
        (create_commitment_transaction_outputs tl tr keys rb delay fee).map
          (fun outs => sort_outputs (outs ++ create_htlc_outputs keys offered received))) :=
  ⟨cmpOutput_eq_iff,
   fun a b => transCmp_cmpOutput.symm a b,
   fun _ _ _ h1 h2 => transCmp_cmpOutput.le_trans h1 h2,
   fun _ hl => List.mergeSort_of_sorted (hl.imp fun h => by simpa using h),
   fun _ _ _ _ _ _ _ _ => rfl⟩

/-- Witness for C7: the transitivity and sorted-no-op parts at concrete
outputs. -/
theorem output_ordering_witness :
    (cmpOutput ⟨1, [], Option.none⟩ ⟨2, [], Option.none⟩ ≠ Ordering.gt) ∧
    (cmpOutput ⟨2, [], Option.none⟩ ⟨3, [], Option.none⟩ ≠ Ordering.gt) ∧
    (cmpOutput ⟨1, [], Option.none⟩ ⟨3, [], Option.none⟩ ≠ Ordering.gt) ∧
    sort_outputs [⟨1, [], Option.none⟩, ⟨2, [], Option.none⟩] =
      [⟨1, [], Option.none⟩, ⟨2, [], Option.none⟩] :=
  ⟨by decide, by decide,
   output_ordering_total_and_single_pass.2.2.1 ⟨1, [], Option.none⟩ ⟨2, [], Option.none⟩
     ⟨3, [], Option.none⟩ (by decide) (by decide),
   output_ordering_total_and_single_pass.2.2.2.1
     [⟨1, [], Option.none⟩, ⟨2, [], Option.none⟩]
     (by simp [List.pairwise_cons]; decide)⟩

/-! ## C1: commitment-number obscuring -/

theorem beBytes_lt (n x : Nat) : ∀ b ∈ beBytes n x, b < 256 := by
  intro b hb
  rw [beBytes, List.mem_map] at hb
  obtain ⟨i, _, rfl⟩ := hb
  exact Nat.mod_lt _ (by norm_num)

theorem mem_foldr_beBytes (L : List Nat) (b : Nat) :
    b ∈ L.foldr (fun w acc => beBytes 4 w ++ acc) [] → b < 256 := by
  induction L with
  | nil => intro h; cases h
  | cons w ws ih =>
      intro h
      rw [List.foldr_cons, List.mem_append] at h
      rcases h with h | h
      · exact beBytes_lt 4 w b h
      · exact ih h

/-- Every digest byte of the SHA-256 embedding is an actual byte. -/
theorem sha256_getD_lt (msg : List Nat) (i : Nat) : (sha256 msg).getD i 0 < 256 := by
  rw [List.getD_eq_getElem?_getD]
  rcases h : (sha256 msg)[i]? with _ | b
  · simp
  · simp only [Option.getD_some]
    exact mem_foldr_beBytes _ _ (List.getElem?_mem h)

theorem byte_shift_lt {b : Nat} (hb : b < 256) {k : Nat} (hk : k + 8 ≤ 48) :
    b <<< k < 2 ^ 48 := by
  rw [Nat.shiftLeft_eq]
  calc b * 2 ^ k < 256 * 2 ^ k := Nat.mul_lt_mul_of_lt_of_le hb (le_refl _) (Nat.two_pow_pos k)
  _ = 2 ^ (k + 8) := by rw [pow_add]; ring
  _ ≤ 2 ^ 48 := Nat.pow_le_pow_right (by norm_num) hk

/-- The obscure factor is 48 bits. -/
theorem obscure_factor_lt (A B : List Nat) (o : Bool) :
    get_commitment_transaction_number_obscure_factor A B o < 2 ^ 48 := by
  unfold get_commitment_transaction_number_obscure_factor
  apply Nat.or_lt_two_pow
  apply Nat.or_lt_two_pow
  apply Nat.or_lt_two_pow
  apply Nat.or_lt_two_pow
  apply Nat.or_lt_two_pow
  all_goals exact byte_shift_lt (sha256_getD_lt _ _) (by norm_num)

/-- C1 (amended): for every single-input transaction, basepoint pair,
direction, and commitment index `i < 2 ^ 48`, the code stores the obscured
number `factor XOR (INITIAL_COMMITMENT_NUMBER - i)` with its **lower** 24 bits
in the locktime (high byte `0x20`) and its **upper** 24 bits in the input
sequence (high byte `0x80`), and decoding recovers exactly `i`. -/
theorem set_obscured_roundtrip (tx : Transaction) (i0 : TxIn) (rest : List TxIn)
    (htx : tx.input = i0 :: rest) (A B : List Nat) (outbound : Bool) (i : Nat)
    (hi : i < 2 ^ 48) :
    ∃ lock seq : Nat,
      set_obscured_commitment_number tx i A B outbound =
        some { tx with lock_time := lock, input := { i0 with sequence := seq } :: rest } ∧
      lock >>> 24 = 0x20 ∧ seq >>> 24 = 0x80 ∧
      decode_obscured_commitment_number lock seq
        (get_commitment_transaction_number_obscure_factor A B outbound) = i := by
  have hINIT : INITIAL_COMMITMENT_NUMBER = 2 ^ 48 - 1 := by
    rw [INITIAL_COMMITMENT_NUMBER, Nat.shiftLeft_eq]
    norm_num
  have hF := obscure_factor_lt A B outbound
  set F := get_commitment_transaction_number_obscure_factor A B outbound with hFdef
  set n := F ^^^ (INITIAL_COMMITMENT_NUMBER - i) with hndef
  have hM : INITIAL_COMMITMENT_NUMBER - i < 2 ^ 48 := by omega
  have hn : n < 2 ^ 48 := Nat.xor_lt_two_pow hF hM
  have e1 : (0x20 : Nat) <<< (8 * 3) = 2 ^ 24 * 0x20 := by
    rw [Nat.shiftLeft_eq]; norm_num
  have e2 : (0x80 : Nat) <<< (8 * 3) = 2 ^ 24 * 0x80 := by
    rw [Nat.shiftLeft_eq]; norm_num
  have hff : (0xffffff : Nat) = 2 ^ 24 - 1 := by norm_num
  have hmod24 : n % 2 ^ 24 < 2 ^ 24 := Nat.mod_lt _ (by norm_num)
  have hdiv24 : n >>> (3 * 8) = n / 2 ^ 24 := Nat.shiftRight_eq_div_pow n 24
  have hdivlt : n / 2 ^ 24 < 2 ^ 24 :=
    Nat.div_lt_of_lt_mul (by calc n < 2 ^ 48 := hn
                                _ = 2 ^ 24 * 2 ^ 24 := by norm_num)
  refine ⟨((0x20 : Nat) <<< (8 * 3)) ||| (n &&& 0xffffff),
    ((0x80 : Nat) <<< (8 * 3)) ||| ((n >>> (3 * 8)) % 4294967296), ?_, ?_, ?_, ?_⟩
  · rw [set_obscured_commitment_number, if_pos (by omega : i ≤ INITIAL_COMMITMENT_NUMBER)]
    rw [htx]
  · rw [e1, hff, Nat.and_pow_two_sub_one_eq_mod, ← Nat.mul_add_lt_is_or hmod24,
      Nat.shiftRight_eq_div_pow]
    omega
  · rw [e2, hdiv24, Nat.mod_eq_of_lt (lt_trans hdivlt (by norm_num)),
      ← Nat.mul_add_lt_is_or hdivlt, Nat.shiftRight_eq_div_pow]
    omega
  · rw [decode_obscured_commitment_number]
    have hseqand : (((0x80 : Nat) <<< (8 * 3)) ||| ((n >>> (3 * 8)) % 4294967296)) &&&
        0xffffff = n / 2 ^ 24 := by
      rw [e2, hdiv24, Nat.mod_eq_of_lt (lt_trans hdivlt (by norm_num)),
        ← Nat.mul_add_lt_is_or hdivlt, hff, Nat.and_pow_two_sub_one_eq_mod]
      omega
    have hlockand : (((0x20 : Nat) <<< (8 * 3)) ||| (n &&& 0xffffff)) &&& 0xffffff =
        n % 2 ^ 24 := by
      rw [e1]
      simp only [hff, Nat.and_pow_two_sub_one_eq_mod]
      rw [← Nat.mul_add_lt_is_or hmod24]
      omega
    rw [hseqand, hlockand]
    have hre : ((n / 2 ^ 24) <<< 24) ||| (n % 2 ^ 24) = n := by
      rw [Nat.shiftLeft_eq, mul_comm, ← Nat.mul_add_lt_is_or hmod24]
      omega
    rw [hre]
    have hxor : n ^^^ F = INITIAL_COMMITMENT_NUMBER - i := by
      rw [hndef, Nat.xor_comm F _, Nat.xor_assoc, Nat.xor_self, Nat.xor_zero]
    rw [hxor]
    omega

/-- C1 counterexample: with the BOLT3 basepoints (obscure factor
`0x2bb038521914`) and commitment index 42, the code sets the locktime to
`0x20ade6c1` — its low 24 bits are the low 24 bits of
`factor XOR (2^48 - 1 - 42)` — which differs from the claim's formula
(upper 24 bits of `factor XOR 42` in the locktime, which would give
`0x202bb038`). -/
theorem set_obscured_counterexample :
    get_commitment_transaction_number_obscure_factor bolt3_local_payment_basepoint
      bolt3_remote_payment_basepoint true = 0x2bb038521914 ∧
    (set_obscured_commitment_number ⟨2, 0, [⟨([], 0), [], 0xffffffff, []⟩], []⟩ 42
        bolt3_local_payment_basepoint bolt3_remote_payment_basepoint true).map
      Transaction.lock_time = some 0x20ade6c1 ∧
    (0x20ade6c1 : Nat) ≠
      ((0x20 : Nat) <<< 24) |||
        ((get_commitment_transaction_number_obscure_factor bolt3_local_payment_basepoint
            bolt3_remote_payment_basepoint true ^^^ 42) >>> 24) := by
  refine ⟨by decide, by decide, ?_⟩
  rw [show get_commitment_transaction_number_obscure_factor bolt3_local_payment_basepoint
      bolt3_remote_payment_basepoint true = 0x2bb038521914 from by decide]
  decide

/-- Witness for C1 (amended) at the BOLT3 basepoints and index 42. -/
theorem set_obscured_roundtrip_witness :
    ((⟨2, 0, [⟨([], 0), [], 0xffffffff, []⟩], []⟩ : Transaction).input =
      ⟨([], 0), [], 0xffffffff, []⟩ :: []) ∧ (42 < 2 ^ 48) ∧
    ∃ lock seq : Nat,
      set_obscured_commitment_number ⟨2, 0, [⟨([], 0), [], 0xffffffff, []⟩], []⟩ 42
          bolt3_local_payment_basepoint bolt3_remote_payment_basepoint true =
        some { (⟨2, 0, [⟨([], 0), [], 0xffffffff, []⟩], []⟩ : Transaction) with
          lock_time := lock,
          input := { (⟨([], 0), [], 0xffffffff, []⟩ : TxIn) with sequence := seq } :: [] } ∧
      lock >>> 24 = 0x20 ∧ seq >>> 24 = 0x80 ∧
      decode_obscured_commitment_number lock seq
        (get_commitment_transaction_number_obscure_factor bolt3_local_payment_basepoint
          bolt3_remote_payment_basepoint true) = 42 :=
  ⟨rfl, by norm_num,
    set_obscured_roundtrip ⟨2, 0, [⟨([], 0), [], 0xffffffff, []⟩], []⟩
      ⟨([], 0), [], 0xffffffff, []⟩ [] rfl bolt3_local_payment_basepoint
      bolt3_remote_payment_basepoint true 42 (by norm_num)⟩

/-! ## C3: the commitment-secret chain -/

/-- The code's bit loop (`for i in 0..48`, `bitpos = 47 - i`) is the spec's
scan of the 48 index bits from bit 47 down to bit 0. -/
theorem build_commitment_secret_eq_spec (seed : List Nat) (index : Nat) :
    build_commitment_secret seed index = commitment_secret_spec seed index := by
  unfold build_commitment_secret commitment_secret_spec
  rw [show (List.range 48).reverse = (List.range 48).map (fun e => 47 - e) from by decide]
  rw [List.foldl_map]
  apply List.foldl_ext
  intro acc e he
  simp only [and_one_shift_eq_testBit]

/-- Reduction of an `if` whose condition is the literal `true`. -/
theorem ite_true_true {α : Type} (a b : α) : (if (true = true) then a else b) = a := rfl

theorem secretChainStep47 : sha256 (flipBit (List.replicate 32 0) 47) = [160, 252, 10, 129, 106, 176, 36, 201, 222, 210, 109, 154, 71, 75, 83, 198, 102, 53, 55, 100, 0, 251, 58, 177, 23, 186, 178, 98, 50, 26, 19, 8] := by decide

theorem secretChainStep46 : sha256 (flipBit ([160, 252, 10, 129, 106, 176, 36, 201, 222, 210, 109, 154, 71, 75, 83, 198, 102, 53, 55, 100, 0, 251, 58, 177, 23, 186, 178, 98, 50, 26, 19, 8]) 46) = [153, 197, 108, 234, 21, 255, 22, 182, 9, 223, 146, 223, 109, 175, 45, 15, 195, 152, 231, 125, 139, 204, 191, 240, 162, 59, 129, 81, 211, 224, 95, 150] := by decide

theorem secretChainStep45 : sha256 (flipBit ([153, 197, 108, 234, 21, 255, 22, 182, 9, 223, 146, 223, 109, 175, 45, 15, 195, 152, 231, 125, 139, 204, 191, 240, 162, 59, 129, 81, 211, 224, 95, 150]) 45) = [6, 157, 23, 13, 230, 2, 120, 97, 227, 248, 78, 72, 170, 105, 19, 154, 195, 34, 134, 143, 128, 165, 66, 230, 21, 198, 124, 71, 24, 61, 251, 76] := by decide

theorem secretChainStep44 : sha256 (flipBit ([6, 157, 23, 13, 230, 2, 120, 97, 227, 248, 78, 72, 170, 105, 19, 154, 195, 34, 134, 143, 128, 165, 66, 230, 21, 198, 124, 71, 24, 61, 251, 76]) 44) = [117, 76, 55, 30, 226, 62, 212, 149, 70, 143, 236, 170, 63, 7, 107, 35, 71, 126, 86, 47, 178, 119, 14, 32, 154, 159, 207, 196, 189, 41, 209, 85] := by decide

theorem secretChainStep43 : sha256 (flipBit ([117, 76, 55, 30, 226, 62, 212, 149, 70, 143, 236, 170, 63, 7, 107, 35, 71, 126, 86, 47, 178, 119, 14, 32, 154, 159, 207, 196, 189, 41, 209, 85]) 43) = [145, 251, 11, 84, 181, 137, 9, 39, 28, 209, 222, 98, 187, 103, 13, 90, 22, 37, 182, 198, 63, 209, 248, 255, 112, 80, 32, 246, 207, 84, 167, 0] := by decide

theorem secretChainStep42 : sha256 (flipBit ([145, 251, 11, 84, 181, 137, 9, 39, 28, 209, 222, 98, 187, 103, 13, 90, 22, 37, 182, 198, 63, 209, 248, 255, 112, 80, 32, 246, 207, 84, 167, 0]) 42) = [165, 217, 24, 111, 52, 153, 12, 59, 26, 190, 60, 5, 33, 102, 157, 187, 251, 190, 63, 126, 224, 96, 30, 226, 120, 195, 255, 214, 52, 34, 140, 168] := by decide

theorem secretChainStep41 : sha256 (flipBit ([165, 217, 24, 111, 52, 153, 12, 59, 26, 190, 60, 5, 33, 102, 157, 187, 251, 190, 63, 126, 224, 96, 30, 226, 120, 195, 255, 214, 52, 34, 140, 168]) 41) = [115, 142, 219, 187, 202, 41, 33, 244, 135, 51, 92, 198, 21, 229, 255, 31, 166, 247, 21, 247, 125, 32, 106, 192, 137, 217, 240, 199, 17, 64, 85, 5] := by decide

theorem secretChainStep40 : sha256 (flipBit ([115, 142, 219, 187, 202, 41, 33, 244, 135, 51, 92, 198, 21, 229, 255, 31, 166, 247, 21, 247, 125, 32, 106, 192, 137, 217, 240, 199, 17, 64, 85, 5]) 40) = [106, 57, 61, 139, 110, 19, 134, 33, 62, 214, 202, 80, 233, 65, 228, 240, 31, 221, 125, 66, 28, 63, 58, 176, 73, 199, 187, 146, 129, 251, 188, 71] := by decide

theorem secretChainStep39 : sha256 (flipBit ([106, 57, 61, 139, 110, 19, 134, 33, 62, 214, 202, 80, 233, 65, 228, 240, 31, 221, 125, 66, 28, 63, 58, 176, 73, 199, 187, 146, 129, 251, 188, 71]) 39) = [50, 23, 3, 9, 98, 76, 103, 83, 205, 2, 111, 77, 31, 150, 122, 9, 21, 80, 120, 128, 25, 211, 145, 224, 105, 18, 100, 148, 87, 222, 58, 226] := by decide

theorem secretChainStep38 : sha256 (flipBit ([50, 23, 3, 9, 98, 76, 103, 83, 205, 2, 111, 77, 31, 150, 122, 9, 21, 80, 120, 128, 25, 211, 145, 224, 105, 18, 100, 148, 87, 222, 58, 226]) 38) = [87, 25, 191, 100, 40, 6, 170, 9, 162, 76, 213, 91, 93, 18, 34, 177, 179, 175, 136, 94, 153, 150, 254, 249, 68, 129, 58, 124, 2, 73, 142, 203] := by decide

theorem secretChainStep37 : sha256 (flipBit ([87, 25, 191, 100, 40, 6, 170, 9, 162, 76, 213, 91, 93, 18, 34, 177, 179, 175, 136, 94, 153, 150, 254, 249, 68, 129, 58, 124, 2, 73, 142, 203]) 37) = [18, 239, 187, 198, 50, 110, 209, 8, 255, 54, 89, 134, 6, 110, 120, 39, 231, 187, 254, 34, 136, 249, 116, 237, 145, 246, 100, 64, 198, 206, 127, 66] := by decide

theorem secretChainStep36 : sha256 (flipBit ([18, 239, 187, 198, 50, 110, 209, 8, 255, 54, 89, 134, 6, 110, 120, 39, 231, 187, 254, 34, 136, 249, 116, 237, 145, 246, 100, 64, 198, 206, 127, 66]) 36) = [35, 205, 214, 95, 103, 174, 89, 39, 53, 18, 178, 6, 184, 76, 92, 214, 20, 201, 176, 143, 224, 195, 249, 194, 144, 249, 222, 119, 45, 84, 146, 217] := by decide

theorem secretChainStep35 : sha256 (flipBit ([35, 205, 214, 95, 103, 174, 89, 39, 53, 18, 178, 6, 184, 76, 92, 214, 20, 201, 176, 143, 224, 195, 249, 194, 144, 249, 222, 119, 45, 84, 146, 217]) 35) = [193, 233, 60, 132, 218, 221, 66, 216, 236, 2, 102, 238, 9, 152, 12, 211, 251, 117, 75, 175, 2, 252, 72, 169, 226, 73, 140, 224, 158, 244, 102, 33] := by decide

theorem secretChainStep34 : sha256 (flipBit ([193, 233, 60, 132, 218, 221, 66, 216, 236, 2, 102, 238, 9, 152, 12, 211, 251, 117, 75, 175, 2, 252, 72, 169, 226, 73, 140, 224, 158, 244, 102, 33]) 34) = [209, 174, 76, 183, 19, 92, 83, 108, 105, 186, 19, 42, 37, 64, 237, 81, 207, 92, 204, 115, 45, 237, 139, 109, 78, 141, 148, 46, 122, 101, 247, 142] := by decide

theorem secretChainStep33 : sha256 (flipBit ([209, 174, 76, 183, 19, 92, 83, 108, 105, 186, 19, 42, 37, 64, 237, 81, 207, 92, 204, 115, 45, 237, 139, 109, 78, 141, 148, 46, 122, 101, 247, 142]) 33) = [189, 169, 174, 195, 57, 52, 85, 67, 62, 58, 237, 149, 61, 162, 169, 12, 215, 183, 236, 97, 211, 52, 11, 147, 110, 177, 18, 46, 104, 226, 143, 134] := by decide

theorem secretChainStep32 : sha256 (flipBit ([189, 169, 174, 195, 57, 52, 85, 67, 62, 58, 237, 149, 61, 162, 169, 12, 215, 183, 236, 97, 211, 52, 11, 147, 110, 177, 18, 46, 104, 226, 143, 134]) 32) = [60, 15, 201, 85, 202, 221, 167, 110, 255, 23, 144, 0, 244, 188, 200, 160, 73, 151, 186, 110, 64, 130, 70, 245, 142, 18, 244, 52, 250, 252, 227, 200] := by decide

theorem secretChainStep31 : sha256 (flipBit ([60, 15, 201, 85, 202, 221, 167, 110, 255, 23, 144, 0, 244, 188, 200, 160, 73, 151, 186, 110, 64, 130, 70, 245, 142, 18, 244, 52, 250, 252, 227, 200]) 31) = [105, 186, 183, 119, 150, 201, 11, 22, 184, 163, 2, 23, 165, 255, 92, 76, 39, 0, 151, 208, 47, 79, 193, 81, 148, 204, 118, 27, 41, 255, 37, 142] := by decide

theorem secretChainStep30 : sha256 (flipBit ([105, 186, 183, 119, 150, 201, 11, 22, 184, 163, 2, 23, 165, 255, 92, 76, 39, 0, 151, 208, 47, 79, 193, 81, 148, 204, 118, 27, 41, 255, 37, 142]) 30) = [139, 142, 1, 74, 123, 53, 2, 185, 83, 221, 5, 194, 23, 247, 3, 32, 179, 112, 10, 241, 30, 193, 253, 15, 138, 193, 21, 29, 212, 48, 140, 182] := by decide

theorem secretChainStep29 : sha256 (flipBit ([139, 142, 1, 74, 123, 53, 2, 185, 83, 221, 5, 194, 23, 247, 3, 32, 179, 112, 10, 241, 30, 193, 253, 15, 138, 193, 21, 29, 212, 48, 140, 182]) 29) = [115, 157, 226, 27, 143, 161, 193, 167, 232, 138, 62, 243, 41, 109, 229, 186, 7, 150, 140, 122, 87, 180, 202, 40, 109, 7, 76, 95, 171, 176, 19, 75] := by decide

theorem secretChainStep28 : sha256 (flipBit ([115, 157, 226, 27, 143, 161, 193, 167, 232, 138, 62, 243, 41, 109, 229, 186, 7, 150, 140, 122, 87, 180, 202, 40, 109, 7, 76, 95, 171, 176, 19, 75]) 28) = [125, 247, 11, 149, 45, 175, 1, 221, 178, 0, 67, 42, 14, 179, 21, 156, 54, 197, 199, 88, 100, 251, 132, 209, 139, 239, 204, 108, 186, 22, 150, 136] := by decide

theorem secretChainStep27 : sha256 (flipBit ([125, 247, 11, 149, 45, 175, 1, 221, 178, 0, 67, 42, 14, 179, 21, 156, 54, 197, 199, 88, 100, 251, 132, 209, 139, 239, 204, 108, 186, 22, 150, 136]) 27) = [252, 220, 187, 39, 198, 132, 240, 62, 114, 16, 190, 27, 87, 25, 8, 225, 17, 120, 27, 179, 166, 6, 21, 28, 105, 59, 98, 220, 148, 44, 128, 160] := by decide

theorem secretChainStep26 : sha256 (flipBit ([252, 220, 187, 39, 198, 132, 240, 62, 114, 16, 190, 27, 87, 25, 8, 225, 17, 120, 27, 179, 166, 6, 21, 28, 105, 59, 98, 220, 148, 44, 128, 160]) 26) = [152, 108, 121, 236, 166, 3, 49, 207, 179, 53, 112, 235, 74, 227, 244, 146, 4, 43, 19, 212, 127, 255, 223, 186, 196, 18, 236, 141, 208, 46, 97, 158] := by decide

theorem secretChainStep25 : sha256 (flipBit ([152, 108, 121, 236, 166, 3, 49, 207, 179, 53, 112, 235, 74, 227, 244, 146, 4, 43, 19, 212, 127, 255, 223, 186, 196, 18, 236, 141, 208, 46, 97, 158]) 25) = [134, 58, 143, 80, 204, 70, 42, 48, 196, 251, 238, 147, 45, 117, 248, 32, 158, 232, 74, 129, 175, 179, 27, 57, 11, 124, 64, 231, 210, 157, 175, 151] := by decide

theorem secretChainStep24 : sha256 (flipBit ([134, 58, 143, 80, 204, 70, 42, 48, 196, 251, 238, 147, 45, 117, 248, 32, 158, 232, 74, 129, 175, 179, 27, 57, 11, 124, 64, 231, 210, 157, 175, 151]) 24) = [180, 170, 219, 195, 179, 140, 236, 31, 81, 187, 208, 161, 86, 67, 186, 163, 21, 193, 114, 80, 88, 61, 77, 156, 196, 217, 157, 217, 44, 224, 79, 138] := by decide

theorem secretChainStep23 : sha256 (flipBit ([180, 170, 219, 195, 179, 140, 236, 31, 81, 187, 208, 161, 86, 67, 186, 163, 21, 193, 114, 80, 88, 61, 77, 156, 196, 217, 157, 217, 44, 224, 79, 138]) 23) = [230, 67, 139, 89, 193, 135, 228, 152, 180, 143, 87, 100, 139, 38, 50, 84, 41, 233, 230, 198, 51, 237, 1, 43, 193, 57, 72, 34, 91, 239, 236, 40] := by decide

theorem secretChainStep22 : sha256 (flipBit ([230, 67, 139, 89, 193, 135, 228, 152, 180, 143, 87, 100, 139, 38, 50, 84, 41, 233, 230, 198, 51, 237, 1, 43, 193, 57, 72, 34, 91, 239, 236, 40]) 22) = [237, 75, 58, 96, 251, 203, 221, 188, 161, 232, 141, 166, 74, 217, 237, 196, 159, 74, 164, 70, 106, 248, 221, 139, 251, 28, 2, 151, 89, 165, 36, 61] := by decide

theorem secretChainStep21 : sha256 (flipBit ([237, 75, 58, 96, 251, 203, 221, 188, 161, 232, 141, 166, 74, 217, 237, 196, 159, 74, 164, 70, 106, 248, 221, 139, 251, 28, 2, 151, 89, 165, 36, 61]) 21) = [180, 81, 193, 161, 245, 243, 207, 36, 85, 130, 121, 120, 248, 109, 166, 132, 236, 96, 130, 233, 160, 117, 84, 6, 60, 225, 167, 205, 215, 220, 107, 185] := by decide

theorem secretChainStep20 : sha256 (flipBit ([180, 81, 193, 161, 245, 243, 207, 36, 85, 130, 121, 120, 248, 109, 166, 132, 236, 96, 130, 233, 160, 117, 84, 6, 60, 225, 167, 205, 215, 220, 107, 185]) 20) = [19, 122, 99, 91, 207, 130, 48, 165, 150, 50, 182, 1, 198, 158, 76, 90, 120, 0, 91, 54, 32, 180, 144, 88, 122, 225, 125, 138, 34, 145, 221, 220] := by decide

theorem secretChainStep19 : sha256 (flipBit ([19, 122, 99, 91, 207, 130, 48, 165, 150, 50, 182, 1, 198, 158, 76, 90, 120, 0, 91, 54, 32, 180, 144, 88, 122, 225, 125, 138, 34, 145, 221, 220]) 19) = [31, 11, 50, 3, 189, 244, 224, 54, 166, 7, 19, 165, 222, 239, 200, 189, 146, 98, 236, 181, 185, 41, 127, 234, 107, 41, 179, 3, 194, 227, 178, 172] := by decide

theorem secretChainStep18 : sha256 (flipBit ([31, 11, 50, 3, 189, 244, 224, 54, 166, 7, 19, 165, 222, 239, 200, 189, 146, 98, 236, 181, 185, 41, 127, 234, 107, 41, 179, 3, 194, 227, 178, 172]) 18) = [142, 147, 232, 129, 155, 233, 48, 193, 105, 134, 130, 11, 234, 48, 222, 107, 247, 157, 197, 29, 35, 10, 218, 250, 146, 112, 71, 209, 164, 115, 31, 22] := by decide

theorem secretChainStep17 : sha256 (flipBit ([142, 147, 232, 129, 155, 233, 48, 193, 105, 134, 130, 11, 234, 48, 222, 107, 247, 157, 197, 29, 35, 10, 218, 250, 146, 112, 71, 209, 164, 115, 31, 22]) 17) = [215, 81, 1, 200, 39, 210, 196, 234, 206, 104, 123, 3, 114, 124, 103, 111, 213, 27, 121, 121, 160, 201, 116, 52, 222, 171, 56, 200, 138, 8, 1, 31] := by decide

theorem secretChainStep16 : sha256 (flipBit ([215, 81, 1, 200, 39, 210, 196, 234, 206, 104, 123, 3, 114, 124, 103, 111, 213, 27, 121, 121, 160, 201, 116, 52, 222, 171, 56, 200, 138, 8, 1, 31]) 16) = [177, 152, 217, 207, 21, 152, 131, 24, 78, 46, 247, 188, 231, 108, 62, 234, 224, 193, 46, 208, 215, 229, 187, 82, 28, 102, 102, 213, 157, 79, 101, 176] := by decide

theorem secretChainStep15 : sha256 (flipBit ([177, 152, 217, 207, 21, 152, 131, 24, 78, 46, 247, 188, 231, 108, 62, 234, 224, 193, 46, 208, 215, 229, 187, 82, 28, 102, 102, 213, 157, 79, 101, 176]) 15) = [152, 122, 106, 112, 81, 227, 6, 185, 79, 124, 135, 83, 106, 161, 233, 22, 189, 38, 184, 14, 141, 217, 139, 217, 182, 153, 23, 25, 110, 49, 168, 94] := by decide

theorem secretChainStep14 : sha256 (flipBit ([152, 122, 106, 112, 81, 227, 6, 185, 79, 124, 135, 83, 106, 161, 233, 22, 189, 38, 184, 14, 141, 217, 139, 217, 182, 153, 23, 25, 110, 49, 168, 94]) 14) = [93, 148, 59, 89, 0, 26, 23, 236, 5, 80, 24, 215, 247, 114, 253, 117, 62, 70, 18, 199, 243, 240, 156, 131, 73, 21, 180, 171, 61, 125, 247, 169] := by decide

theorem secretChainStep13 : sha256 (flipBit ([93, 148, 59, 89, 0, 26, 23, 236, 5, 80, 24, 215, 247, 114, 253, 117, 62, 70, 18, 199, 243, 240, 156, 131, 73, 21, 180, 171, 61, 125, 247, 169]) 13) = [227, 5, 123, 103, 179, 20, 114, 16, 14, 100, 173, 236, 231, 234, 175, 84, 51, 247, 213, 121, 13, 25, 22, 124, 53, 27, 15, 180, 68, 219, 124, 102] := by decide

theorem secretChainStep12 : sha256 (flipBit ([227, 5, 123, 103, 179, 20, 114, 16, 14, 100, 173, 236, 231, 234, 175, 84, 51, 247, 213, 121, 13, 25, 22, 124, 53, 27, 15, 180, 68, 219, 124, 102]) 12) = [165, 58, 224, 133, 151, 231, 229, 58, 231, 124, 73, 78, 40, 169, 88, 247, 154, 250, 189, 18, 227, 225, 245, 36, 242, 122, 211, 143, 187, 165, 166, 31] := by decide

theorem secretChainStep11 : sha256 (flipBit ([165, 58, 224, 133, 151, 231, 229, 58, 231, 124, 73, 78, 40, 169, 88, 247, 154, 250, 189, 18, 227, 225, 245, 36, 242, 122, 211, 143, 187, 165, 166, 31]) 11) = [226, 108, 197, 157, 43, 254, 163, 38, 117, 90, 145, 6, 176, 1, 163, 235, 49, 250, 5, 16, 18, 56, 203, 227, 110, 250, 70, 132, 193, 227, 165, 50] := by decide

theorem secretChainStep10 : sha256 (flipBit ([226, 108, 197, 157, 43, 254, 163, 38, 117, 90, 145, 6, 176, 1, 163, 235, 49, 250, 5, 16, 18, 56, 203, 227, 110, 250, 70, 132, 193, 227, 165, 50]) 10) = [91, 79, 89, 212, 8, 131, 162, 220, 89, 250, 215, 242, 252, 70, 249, 123, 30, 140, 143, 206, 5, 34, 227, 57, 223, 134, 46, 174, 140, 101, 151, 63] := by decide

theorem secretChainStep9 : sha256 (flipBit ([91, 79, 89, 212, 8, 131, 162, 220, 89, 250, 215, 242, 252, 70, 249, 123, 30, 140, 143, 206, 5, 34, 227, 57, 223, 134, 46, 174, 140, 101, 151, 63]) 9) = [58, 153, 61, 55, 180, 188, 6, 47, 145, 113, 73, 155, 148, 184, 86, 228, 78, 53, 240, 158, 26, 58, 160, 131, 32, 220, 137, 184, 242, 78, 215, 226] := by decide

theorem secretChainStep8 : sha256 (flipBit ([58, 153, 61, 55, 180, 188, 6, 47, 145, 113, 73, 155, 148, 184, 86, 228, 78, 53, 240, 158, 26, 58, 160, 131, 32, 220, 137, 184, 242, 78, 215, 226]) 8) = [92, 8, 163, 158, 201, 60, 170, 177, 152, 142, 118, 160, 13, 221, 139, 199, 109, 138, 32, 249, 105, 249, 86, 132, 16, 230, 129, 79, 4, 90, 252, 97] := by decide

theorem secretChainStep7 : sha256 (flipBit ([92, 8, 163, 158, 201, 60, 170, 177, 152, 142, 118, 160, 13, 221, 139, 199, 109, 138, 32, 249, 105, 249, 86, 132, 16, 230, 129, 79, 4, 90, 252, 97]) 7) = [107, 131, 38, 146, 238, 90, 76, 152, 63, 55, 248, 17, 163, 162, 211, 57, 110, 152, 21, 234, 198, 48, 222, 44, 203, 148, 178, 63, 19, 179, 120, 144] := by decide

theorem secretChainStep6 : sha256 (flipBit ([107, 131, 38, 146, 238, 90, 76, 152, 63, 55, 248, 17, 163, 162, 211, 57, 110, 152, 21, 234, 198, 48, 222, 44, 203, 148, 178, 63, 19, 179, 120, 144]) 6) = [91, 176, 76, 159, 18, 39, 232, 107, 157, 55, 1, 186, 169, 55, 15, 83, 188, 187, 142, 245, 208, 22, 170, 249, 227, 102, 172, 227, 151, 42, 220, 153] := by decide

theorem secretChainStep5 : sha256 (flipBit ([91, 176, 76, 159, 18, 39, 232, 107, 157, 55, 1, 186, 169, 55, 15, 83, 188, 187, 142, 245, 208, 22, 170, 249, 227, 102, 172, 227, 151, 42, 220, 153]) 5) = [111, 164, 149, 127, 70, 204, 181, 54, 94, 128, 5, 232, 217, 51, 60, 111, 140, 224, 12, 166, 40, 223, 96, 154, 176, 19, 58, 94, 108, 63, 60, 48] := by decide

theorem secretChainStep4 : sha256 (flipBit ([111, 164, 149, 127, 70, 204, 181, 54, 94, 128, 5, 232, 217, 51, 60, 111, 140, 224, 12, 166, 40, 223, 96, 154, 176, 19, 58, 94, 108, 63, 60, 48]) 4) = [230, 221, 56, 71, 155, 133, 161, 119, 0, 130, 248, 205, 148, 239, 63, 66, 20, 84, 67, 27, 119, 161, 166, 119, 49, 30, 113, 179, 173, 239, 140, 115] := by decide

theorem secretChainStep3 : sha256 (flipBit ([230, 221, 56, 71, 155, 133, 161, 119, 0, 130, 248, 205, 148, 239, 63, 66, 20, 84, 67, 27, 119, 161, 166, 119, 49, 30, 113, 179, 173, 239, 140, 115]) 3) = [167, 239, 188, 97, 170, 196, 109, 52, 247, 119, 120, 186, 194, 44, 138, 32, 198, 164, 108, 164, 96, 173, 220, 73, 0, 155, 218, 135, 94, 200, 143, 164] := by decide

theorem secretChainStep2 : sha256 (flipBit ([167, 239, 188, 97, 170, 196, 109, 52, 247, 119, 120, 186, 194, 44, 138, 32, 198, 164, 108, 164, 96, 173, 220, 73, 0, 155, 218, 135, 94, 200, 143, 164]) 2) = [186, 101, 215, 176, 239, 85, 163, 186, 48, 13, 78, 135, 175, 41, 134, 143, 57, 79, 143, 19, 141, 120, 167, 1, 22, 105, 199, 155, 55, 185, 54, 244] := by decide

theorem secretChainStep1 : sha256 (flipBit ([186, 101, 215, 176, 239, 85, 163, 186, 48, 13, 78, 135, 175, 41, 134, 143, 57, 79, 143, 19, 141, 120, 167, 1, 22, 105, 199, 155, 55, 185, 54, 244]) 1) = [221, 220, 58, 141, 20, 253, 223, 43, 104, 250, 140, 127, 186, 210, 116, 130, 116, 147, 116, 121, 221, 15, 137, 48, 213, 235, 180, 171, 107, 216, 102, 163] := by decide

theorem secretChainStep0 : sha256 (flipBit ([221, 220, 58, 141, 20, 253, 223, 43, 104, 250, 140, 127, 186, 210, 116, 130, 116, 147, 116, 121, 221, 15, 137, 48, 213, 235, 180, 171, 107, 216, 102, 163]) 0) = [2, 164, 12, 133, 182, 242, 141, 160, 141, 253, 190, 9, 38, 197, 63, 171, 45, 230, 210, 140, 16, 48, 31, 143, 124, 64, 115, 213, 228, 46, 49, 72] := by decide

/-- One resolved step of the spec's bit scan: when bit `k` is set and the
hash of the flipped buffer is `v`, the fold continues from `v`. -/
theorem spec_fold_step (M : Nat) (buf : List Nat) (k : Nat) (ks : List Nat)
    (hbit : Nat.testBit M k = true) (v : List Nat) (hv : sha256 (flipBit buf k) = v) :
    List.foldl (fun b bitpos => if M.testBit bitpos then sha256 (flipBit b bitpos) else b)
      buf (k :: ks) =
    List.foldl (fun b bitpos => if M.testBit bitpos then sha256 (flipBit b bitpos) else b)
      v ks := by
  rw [List.foldl_cons]
  congr 1
  show (if M.testBit k then sha256 (flipBit buf k) else buf) = v
  rw [if_pos hbit, hv]

/-- C3: `build_commitment_secret` implements exactly the spec's algorithm
(scan the 48 index bits from bit 47 down to bit 0; on each set bit, flip bit
`bitpos % 8` of byte `bitpos / 8` and re-hash with SHA-256), and on the
all-zero seed at the maximal index 281474976710655 it produces the spec's
vector `0x02a40c85b6f28da08dfdbe0926c53fab2de6d28c10301f8f7c4073d5e42e3148`. -/
theorem commitment_secret_chain_correct :
    (∀ seed index, build_commitment_secret seed index = commitment_secret_spec seed index) ∧
    build_commitment_secret (List.replicate 32 0) 281474976710655 =
      [2, 164, 12, 133, 182, 242, 141, 160, 141, 253, 190, 9, 38, 197, 63, 171, 45, 230, 210, 140, 16, 48, 31, 143, 124, 64, 115, 213, 228, 46, 49, 72] := by
  refine ⟨build_commitment_secret_eq_spec, ?_⟩
  rw [build_commitment_secret_eq_spec]
  unfold commitment_secret_spec
  rw [show (List.range 48).reverse = [47, 46, 45, 44, 43, 42, 41, 40, 39, 38, 37, 36, 35, 34, 33, 32, 31, 30, 29, 28, 27, 26, 25, 24, 23, 22, 21, 20, 19, 18, 17, 16, 15, 14, 13, 12, 11, 10, 9, 8, 7, 6, 5, 4, 3, 2, 1, 0] from by decide]
  rw [spec_fold_step 281474976710655 (List.replicate 32 0) 47 [46, 45, 44, 43, 42, 41, 40, 39, 38, 37, 36, 35, 34, 33, 32, 31, 30, 29, 28, 27, 26, 25, 24, 23, 22, 21, 20, 19, 18, 17, 16, 15, 14, 13, 12, 11, 10, 9, 8, 7, 6, 5, 4, 3, 2, 1, 0] (by decide) [160, 252, 10, 129, 106, 176, 36, 201, 222, 210, 109, 154, 71, 75, 83, 198, 102, 53, 55, 100, 0, 251, 58, 177, 23, 186, 178, 98, 50, 26, 19, 8] secretChainStep47]
  rw [spec_fold_step 281474976710655 ([160, 252, 10, 129, 106, 176, 36, 201, 222, 210, 109, 154, 71, 75, 83, 198, 102, 53, 55, 100, 0, 251, 58, 177, 23, 186, 178, 98, 50, 26, 19, 8]) 46 [45, 44, 43, 42, 41, 40, 39, 38, 37, 36, 35, 34, 33, 32, 31, 30, 29, 28, 27, 26, 25, 24, 23, 22, 21, 20, 19, 18, 17, 16, 15, 14, 13, 12, 11, 10, 9, 8, 7, 6, 5, 4, 3, 2, 1, 0] (by decide) [153, 197, 108, 234, 21, 255, 22, 182, 9, 223, 146, 223, 109, 175, 45, 15, 195, 152, 231, 125, 139, 204, 191, 240, 162, 59, 129, 81, 211, 224, 95, 150] secretChainStep46]
  rw [spec_fold_step 281474976710655 ([153, 197, 108, 234, 21, 255, 22, 182, 9, 223, 146, 223, 109, 175, 45, 15, 195, 152, 231, 125, 139, 204, 191, 240, 162, 59, 129, 81, 211, 224, 95, 150]) 45 [44, 43, 42, 41, 40, 39, 38, 37, 36, 35, 34, 33, 32, 31, 30, 29, 28, 27, 26, 25, 24, 23, 22, 21, 20, 19, 18, 17, 16, 15, 14, 13, 12, 11, 10, 9, 8, 7, 6, 5, 4, 3, 2, 1, 0] (by decide) [6, 157, 23, 13, 230, 2, 120, 97, 227, 248, 78, 72, 170, 105, 19, 154, 195, 34, 134, 143, 128, 165, 66, 230, 21, 198, 124, 71, 24, 61, 251, 76] secretChainStep45]
  rw [spec_fold_step 281474976710655 ([6, 157, 23, 13, 230, 2, 120, 97, 227, 248, 78, 72, 170, 105, 19, 154, 195, 34, 134, 143, 128, 165, 66, 230, 21, 198, 124, 71, 24, 61, 251, 76]) 44 [43, 42, 41, 40, 39, 38, 37, 36, 35, 34, 33, 32, 31, 30, 29, 28, 27, 26, 25, 24, 23, 22, 21, 20, 19, 18, 17, 16, 15, 14, 13, 12, 11, 10, 9, 8, 7, 6, 5, 4, 3, 2, 1, 0] (by decide) [117, 76, 55, 30, 226, 62, 212, 149, 70, 143, 236, 170, 63, 7, 107, 35, 71, 126, 86, 47, 178, 119, 14, 32, 154, 159, 207, 196, 189, 41, 209, 85] secretChainStep44]
  rw [spec_fold_step 281474976710655 ([117, 76, 55, 30, 226, 62, 212, 149, 70, 143, 236, 170, 63, 7, 107, 35, 71, 126, 86, 47, 178, 119, 14, 32, 154, 159, 207, 196, 189, 41, 209, 85]) 43 [42, 41, 40, 39, 38, 37, 36, 35, 34, 33, 32, 31, 30, 29, 28, 27, 26, 25, 24, 23, 22, 21, 20, 19, 18, 17, 16, 15, 14, 13, 12, 11, 10, 9, 8, 7, 6, 5, 4, 3, 2, 1, 0] (by decide) [145, 251, 11, 84, 181, 137, 9, 39, 28, 209, 222, 98, 187, 103, 13, 90, 22, 37, 182, 198, 63, 209, 248, 255, 112, 80, 32, 246, 207, 84, 167, 0] secretChainStep43]
  rw [spec_fold_step 281474976710655 ([145, 251, 11, 84, 181, 137, 9, 39, 28, 209, 222, 98, 187, 103, 13, 90, 22, 37, 182, 198, 63, 209, 248, 255, 112, 80, 32, 246, 207, 84, 167, 0]) 42 [41, 40, 39, 38, 37, 36, 35, 34, 33, 32, 31, 30, 29, 28, 27, 26, 25, 24, 23, 22, 21, 20, 19, 18, 17, 16, 15, 14, 13, 12, 11, 10, 9, 8, 7, 6, 5, 4, 3, 2, 1, 0] (by decide) [165, 217, 24, 111, 52, 153, 12, 59, 26, 190, 60, 5, 33, 102, 157, 187, 251, 190, 63, 126, 224, 96, 30, 226, 120, 195, 255, 214, 52, 34, 140, 168] secretChainStep42]
  rw [spec_fold_step 281474976710655 ([165, 217, 24, 111, 52, 153, 12, 59, 26, 190, 60, 5, 33, 102, 157, 187, 251, 190, 63, 126, 224, 96, 30, 226, 120, 195, 255, 214, 52, 34, 140, 168]) 41 [40, 39, 38, 37, 36, 35, 34, 33, 32, 31, 30, 29, 28, 27, 26, 25, 24, 23, 22, 21, 20, 19, 18, 17, 16, 15, 14, 13, 12, 11, 10, 9, 8, 7, 6, 5, 4, 3, 2, 1, 0] (by decide) [115, 142, 219, 187, 202, 41, 33, 244, 135, 51, 92, 198, 21, 229, 255, 31, 166, 247, 21, 247, 125, 32, 106, 192, 137, 217, 240, 199, 17, 64, 85, 5] secretChainStep41]
  rw [spec_fold_step 281474976710655 ([115, 142, 219, 187, 202, 41, 33, 244, 135, 51, 92, 198, 21, 229, 255, 31, 166, 247, 21, 247, 125, 32, 106, 192, 137, 217, 240, 199, 17, 64, 85, 5]) 40 [39, 38, 37, 36, 35, 34, 33, 32, 31, 30, 29, 28, 27, 26, 25, 24, 23, 22, 21, 20, 19, 18, 17, 16, 15, 14, 13, 12, 11, 10, 9, 8, 7, 6, 5, 4, 3, 2, 1, 0] (by decide) [106, 57, 61, 139, 110, 19, 134, 33, 62, 214, 202, 80, 233, 65, 228, 240, 31, 221, 125, 66, 28, 63, 58, 176, 73, 199, 187, 146, 129, 251, 188, 71] secretChainStep40]
  rw [spec_fold_step 281474976710655 ([106, 57, 61, 139, 110, 19, 134, 33, 62, 214, 202, 80, 233, 65, 228, 240, 31, 221, 125, 66, 28, 63, 58, 176, 73, 199, 187, 146, 129, 251, 188, 71]) 39 [38, 37, 36, 35, 34, 33, 32, 31, 30, 29, 28, 27, 26, 25, 24, 23, 22, 21, 20, 19, 18, 17, 16, 15, 14, 13, 12, 11, 10, 9, 8, 7, 6, 5, 4, 3, 2, 1, 0] (by decide) [50, 23, 3, 9, 98, 76, 103, 83, 205, 2, 111, 77, 31, 150, 122, 9, 21, 80, 120, 128, 25, 211, 145, 224, 105, 18, 100, 148, 87, 222, 58, 226] secretChainStep39]
  rw [spec_fold_step 281474976710655 ([50, 23, 3, 9, 98, 76, 103, 83, 205, 2, 111, 77, 31, 150, 122, 9, 21, 80, 120, 128, 25, 211, 145, 224, 105, 18, 100, 148, 87, 222, 58, 226]) 38 [37, 36, 35, 34, 33, 32, 31, 30, 29, 28, 27, 26, 25, 24, 23, 22, 21, 20, 19, 18, 17, 16, 15, 14, 13, 12, 11, 10, 9, 8, 7, 6, 5, 4, 3, 2, 1, 0] (by decide) [87, 25, 191, 100, 40, 6, 170, 9, 162, 76, 213, 91, 93, 18, 34, 177, 179, 175, 136, 94, 153, 150, 254, 249, 68, 129, 58, 124, 2, 73, 142, 203] secretChainStep38]
  rw [spec_fold_step 281474976710655 ([87, 25, 191, 100, 40, 6, 170, 9, 162, 76, 213, 91, 93, 18, 34, 177, 179, 175, 136, 94, 153, 150, 254, 249, 68, 129, 58, 124, 2, 73, 142, 203]) 37 [36, 35, 34, 33, 32, 31, 30, 29, 28, 27, 26, 25, 24, 23, 22, 21, 20, 19, 18, 17, 16, 15, 14, 13, 12, 11, 10, 9, 8, 7, 6, 5, 4, 3, 2, 1, 0] (by decide) [18, 239, 187, 198, 50, 110, 209, 8, 255, 54, 89, 134, 6, 110, 120, 39, 231, 187, 254, 34, 136, 249, 116, 237, 145, 246, 100, 64, 198, 206, 127, 66] secretChainStep37]
  rw [spec_fold_step 281474976710655 ([18, 239, 187, 198, 50, 110, 209, 8, 255, 54, 89, 134, 6, 110, 120, 39, 231, 187, 254, 34, 136, 249, 116, 237, 145, 246, 100, 64, 198, 206, 127, 66]) 36 [35, 34, 33, 32, 31, 30, 29, 28, 27, 26, 25, 24, 23, 22, 21, 20, 19, 18, 17, 16, 15, 14, 13, 12, 11, 10, 9, 8, 7, 6, 5, 4, 3, 2, 1, 0] (by decide) [35, 205, 214, 95, 103, 174, 89, 39, 53, 18, 178, 6, 184, 76, 92, 214, 20, 201, 176, 143, 224, 195, 249, 194, 144, 249, 222, 119, 45, 84, 146, 217] secretChainStep36]
  rw [spec_fold_step 281474976710655 ([35, 205, 214, 95, 103, 174, 89, 39, 53, 18, 178, 6, 184, 76, 92, 214, 20, 201, 176, 143, 224, 195, 249, 194, 144, 249, 222, 119, 45, 84, 146, 217]) 35 [34, 33, 32, 31, 30, 29, 28, 27, 26, 25, 24, 23, 22, 21, 20, 19, 18, 17, 16, 15, 14, 13, 12, 11, 10, 9, 8, 7, 6, 5, 4, 3, 2, 1, 0] (by decide) [193, 233, 60, 132, 218, 221, 66, 216, 236, 2, 102, 238, 9, 152, 12, 211, 251, 117, 75, 175, 2, 252, 72, 169, 226, 73, 140, 224, 158, 244, 102, 33] secretChainStep35]
  rw [spec_fold_step 281474976710655 ([193, 233, 60, 132, 218, 221, 66, 216, 236, 2, 102, 238, 9, 152, 12, 211, 251, 117, 75, 175, 2, 252, 72, 169, 226, 73, 140, 224, 158, 244, 102, 33]) 34 [33, 32, 31, 30, 29, 28, 27, 26, 25, 24, 23, 22, 21, 20, 19, 18, 17, 16, 15, 14, 13, 12, 11, 10, 9, 8, 7, 6, 5, 4, 3, 2, 1, 0] (by decide) [209, 174, 76, 183, 19, 92, 83, 108, 105, 186, 19, 42, 37, 64, 237, 81, 207, 92, 204, 115, 45, 237, 139, 109, 78, 141, 148, 46, 122, 101, 247, 142] secretChainStep34]
  rw [spec_fold_step 281474976710655 ([209, 174, 76, 183, 19, 92, 83, 108, 105, 186, 19, 42, 37, 64, 237, 81, 207, 92, 204, 115, 45, 237, 139, 109, 78, 141, 148, 46, 122, 101, 247, 142]) 33 [32, 31, 30, 29, 28, 27, 26, 25, 24, 23, 22, 21, 20, 19, 18, 17, 16, 15, 14, 13, 12, 11, 10, 9, 8, 7, 6, 5, 4, 3, 2, 1, 0] (by decide) [189, 169, 174, 195, 57, 52, 85, 67, 62, 58, 237, 149, 61, 162, 169, 12, 215, 183, 236, 97, 211, 52, 11, 147, 110, 177, 18, 46, 104, 226, 143, 134] secretChainStep33]
  rw [spec_fold_step 281474976710655 ([189, 169, 174, 195, 57, 52, 85, 67, 62, 58, 237, 149, 61, 162, 169, 12, 215, 183, 236, 97, 211, 52, 11, 147, 110, 177, 18, 46, 104, 226, 143, 134]) 32 [31, 30, 29, 28, 27, 26, 25, 24, 23, 22, 21, 20, 19, 18, 17, 16, 15, 14, 13, 12, 11, 10, 9, 8, 7, 6, 5, 4, 3, 2, 1, 0] (by decide) [60, 15, 201, 85, 202, 221, 167, 110, 255, 23, 144, 0, 244, 188, 200, 160, 73, 151, 186, 110, 64, 130, 70, 245, 142, 18, 244, 52, 250, 252, 227, 200] secretChainStep32]
  rw [spec_fold_step 281474976710655 ([60, 15, 201, 85, 202, 221, 167, 110, 255, 23, 144, 0, 244, 188, 200, 160, 73, 151, 186, 110, 64, 130, 70, 245, 142, 18, 244, 52, 250, 252, 227, 200]) 31 [30, 29, 28, 27, 26, 25, 24, 23, 22, 21, 20, 19, 18, 17, 16, 15, 14, 13, 12, 11, 10, 9, 8, 7, 6, 5, 4, 3, 2, 1, 0] (by decide) [105, 186, 183, 119, 150, 201, 11, 22, 184, 163, 2, 23, 165, 255, 92, 76, 39, 0, 151, 208, 47, 79, 193, 81, 148, 204, 118, 27, 41, 255, 37, 142] secretChainStep31]
  rw [spec_fold_step 281474976710655 ([105, 186, 183, 119, 150, 201, 11, 22, 184, 163, 2, 23, 165, 255, 92, 76, 39, 0, 151, 208, 47, 79, 193, 81, 148, 204, 118, 27, 41, 255, 37, 142]) 30 [29, 28, 27, 26, 25, 24, 23, 22, 21, 20, 19, 18, 17, 16, 15, 14, 13, 12, 11, 10, 9, 8, 7, 6, 5, 4, 3, 2, 1, 0] (by decide) [139, 142, 1, 74, 123, 53, 2, 185, 83, 221, 5, 194, 23, 247, 3, 32, 179, 112, 10, 241, 30, 193, 253, 15, 138, 193, 21, 29, 212, 48, 140, 182] secretChainStep30]
  rw [spec_fold_step 281474976710655 ([139, 142, 1, 74, 123, 53, 2, 185, 83, 221, 5, 194, 23, 247, 3, 32, 179, 112, 10, 241, 30, 193, 253, 15, 138, 193, 21, 29, 212, 48, 140, 182]) 29 [28, 27, 26, 25, 24, 23, 22, 21, 20, 19, 18, 17, 16, 15, 14, 13, 12, 11, 10, 9, 8, 7, 6, 5, 4, 3, 2, 1, 0] (by decide) [115, 157, 226, 27, 143, 161, 193, 167, 232, 138, 62, 243, 41, 109, 229, 186, 7, 150, 140, 122, 87, 180, 202, 40, 109, 7, 76, 95, 171, 176, 19, 75] secretChainStep29]
  rw [spec_fold_step 281474976710655 ([115, 157, 226, 27, 143, 161, 193, 167, 232, 138, 62, 243, 41, 109, 229, 186, 7, 150, 140, 122, 87, 180, 202, 40, 109, 7, 76, 95, 171, 176, 19, 75]) 28 [27, 26, 25, 24, 23, 22, 21, 20, 19, 18, 17, 16, 15, 14, 13, 12, 11, 10, 9, 8, 7, 6, 5, 4, 3, 2, 1, 0] (by decide) [125, 247, 11, 149, 45, 175, 1, 221, 178, 0, 67, 42, 14, 179, 21, 156, 54, 197, 199, 88, 100, 251, 132, 209, 139, 239, 204, 108, 186, 22, 150, 136] secretChainStep28]
  rw [spec_fold_step 281474976710655 ([125, 247, 11, 149, 45, 175, 1, 221, 178, 0, 67, 42, 14, 179, 21, 156, 54, 197, 199, 88, 100, 251, 132, 209, 139, 239, 204, 108, 186, 22, 150, 136]) 27 [26, 25, 24, 23, 22, 21, 20, 19, 18, 17, 16, 15, 14, 13, 12, 11, 10, 9, 8, 7, 6, 5, 4, 3, 2, 1, 0] (by decide) [252, 220, 187, 39, 198, 132, 240, 62, 114, 16, 190, 27, 87, 25, 8, 225, 17, 120, 27, 179, 166, 6, 21, 28, 105, 59, 98, 220, 148, 44, 128, 160] secretChainStep27]
  rw [spec_fold_step 281474976710655 ([252, 220, 187, 39, 198, 132, 240, 62, 114, 16, 190, 27, 87, 25, 8, 225, 17, 120, 27, 179, 166, 6, 21, 28, 105, 59, 98, 220, 148, 44, 128, 160]) 26 [25, 24, 23, 22, 21, 20, 19, 18, 17, 16, 15, 14, 13, 12, 11, 10, 9, 8, 7, 6, 5, 4, 3, 2, 1, 0] (by decide) [152, 108, 121, 236, 166, 3, 49, 207, 179, 53, 112, 235, 74, 227, 244, 146, 4, 43, 19, 212, 127, 255, 223, 186, 196, 18, 236, 141, 208, 46, 97, 158] secretChainStep26]
  rw [spec_fold_step 281474976710655 ([152, 108, 121, 236, 166, 3, 49, 207, 179, 53, 112, 235, 74, 227, 244, 146, 4, 43, 19, 212, 127, 255, 223, 186, 196, 18, 236, 141, 208, 46, 97, 158]) 25 [24, 23, 22, 21, 20, 19, 18, 17, 16, 15, 14, 13, 12, 11, 10, 9, 8, 7, 6, 5, 4, 3, 2, 1, 0] (by decide) [134, 58, 143, 80, 204, 70, 42, 48, 196, 251, 238, 147, 45, 117, 248, 32, 158, 232, 74, 129, 175, 179, 27, 57, 11, 124, 64, 231, 210, 157, 175, 151] secretChainStep25]
  rw [spec_fold_step 281474976710655 ([134, 58, 143, 80, 204, 70, 42, 48, 196, 251, 238, 147, 45, 117, 248, 32, 158, 232, 74, 129, 175, 179, 27, 57, 11, 124, 64, 231, 210, 157, 175, 151]) 24 [23, 22, 21, 20, 19, 18, 17, 16, 15, 14, 13, 12, 11, 10, 9, 8, 7, 6, 5, 4, 3, 2, 1, 0] (by decide) [180, 170, 219, 195, 179, 140, 236, 31, 81, 187, 208, 161, 86, 67, 186, 163, 21, 193, 114, 80, 88, 61, 77, 156, 196, 217, 157, 217, 44, 224, 79, 138] secretChainStep24]
  rw [spec_fold_step 281474976710655 ([180, 170, 219, 195, 179, 140, 236, 31, 81, 187, 208, 161, 86, 67, 186, 163, 21, 193, 114, 80, 88, 61, 77, 156, 196, 217, 157, 217, 44, 224, 79, 138]) 23 [22, 21, 20, 19, 18, 17, 16, 15, 14, 13, 12, 11, 10, 9, 8, 7, 6, 5, 4, 3, 2, 1, 0] (by decide) [230, 67, 139, 89, 193, 135, 228, 152, 180, 143, 87, 100, 139, 38, 50, 84, 41, 233, 230, 198, 51, 237, 1, 43, 193, 57, 72, 34, 91, 239, 236, 40] secretChainStep23]
  rw [spec_fold_step 281474976710655 ([230, 67, 139, 89, 193, 135, 228, 152, 180, 143, 87, 100, 139, 38, 50, 84, 41, 233, 230, 198, 51, 237, 1, 43, 193, 57, 72, 34, 91, 239, 236, 40]) 22 [21, 20, 19, 18, 17, 16, 15, 14, 13, 12, 11, 10, 9, 8, 7, 6, 5, 4, 3, 2, 1, 0] (by decide) [237, 75, 58, 96, 251, 203, 221, 188, 161, 232, 141, 166, 74, 217, 237, 196, 159, 74, 164, 70, 106, 248, 221, 139, 251, 28, 2, 151, 89, 165, 36, 61] secretChainStep22]
  rw [spec_fold_step 281474976710655 ([237, 75, 58, 96, 251, 203, 221, 188, 161, 232, 141, 166, 74, 217, 237, 196, 159, 74, 164, 70, 106, 248, 221, 139, 251, 28, 2, 151, 89, 165, 36, 61]) 21 [20, 19, 18, 17, 16, 15, 14, 13, 12, 11, 10, 9, 8, 7, 6, 5, 4, 3, 2, 1, 0] (by decide) [180, 81, 193, 161, 245, 243, 207, 36, 85, 130, 121, 120, 248, 109, 166, 132, 236, 96, 130, 233, 160, 117, 84, 6, 60, 225, 167, 205, 215, 220, 107, 185] secretChainStep21]
  rw [spec_fold_step 281474976710655 ([180, 81, 193, 161, 245, 243, 207, 36, 85, 130, 121, 120, 248, 109, 166, 132, 236, 96, 130, 233, 160, 117, 84, 6, 60, 225, 167, 205, 215, 220, 107, 185]) 20 [19, 18, 17, 16, 15, 14, 13, 12, 11, 10, 9, 8, 7, 6, 5, 4, 3, 2, 1, 0] (by decide) [19, 122, 99, 91, 207, 130, 48, 165, 150, 50, 182, 1, 198, 158, 76, 90, 120, 0, 91, 54, 32, 180, 144, 88, 122, 225, 125, 138, 34, 145, 221, 220] secretChainStep20]
  rw [spec_fold_step 281474976710655 ([19, 122, 99, 91, 207, 130, 48, 165, 150, 50, 182, 1, 198, 158, 76, 90, 120, 0, 91, 54, 32, 180, 144, 88, 122, 225, 125, 138, 34, 145, 221, 220]) 19 [18, 17, 16, 15, 14, 13, 12, 11, 10, 9, 8, 7, 6, 5, 4, 3, 2, 1, 0] (by decide) [31, 11, 50, 3, 189, 244, 224, 54, 166, 7, 19, 165, 222, 239, 200, 189, 146, 98, 236, 181, 185, 41, 127, 234, 107, 41, 179, 3, 194, 227, 178, 172] secretChainStep19]
  rw [spec_fold_step 281474976710655 ([31, 11, 50, 3, 189, 244, 224, 54, 166, 7, 19, 165, 222, 239, 200, 189, 146, 98, 236, 181, 185, 41, 127, 234, 107, 41, 179, 3, 194, 227, 178, 172]) 18 [17, 16, 15, 14, 13, 12, 11, 10, 9, 8, 7, 6, 5, 4, 3, 2, 1, 0] (by decide) [142, 147, 232, 129, 155, 233, 48, 193, 105, 134, 130, 11, 234, 48, 222, 107, 247, 157, 197, 29, 35, 10, 218, 250, 146, 112, 71, 209, 164, 115, 31, 22] secretChainStep18]
  rw [spec_fold_step 281474976710655 ([142, 147, 232, 129, 155, 233, 48, 193, 105, 134, 130, 11, 234, 48, 222, 107, 247, 157, 197, 29, 35, 10, 218, 250, 146, 112, 71, 209, 164, 115, 31, 22]) 17 [16, 15, 14, 13, 12, 11, 10, 9, 8, 7, 6, 5, 4, 3, 2, 1, 0] (by decide) [215, 81, 1, 200, 39, 210, 196, 234, 206, 104, 123, 3, 114, 124, 103, 111, 213, 27, 121, 121, 160, 201, 116, 52, 222, 171, 56, 200, 138, 8, 1, 31] secretChainStep17]
  rw [spec_fold_step 281474976710655 ([215, 81, 1, 200, 39, 210, 196, 234, 206, 104, 123, 3, 114, 124, 103, 111, 213, 27, 121, 121, 160, 201, 116, 52, 222, 171, 56, 200, 138, 8, 1, 31]) 16 [15, 14, 13, 12, 11, 10, 9, 8, 7, 6, 5, 4, 3, 2, 1, 0] (by decide) [177, 152, 217, 207, 21, 152, 131, 24, 78, 46, 247, 188, 231, 108, 62, 234, 224, 193, 46, 208, 215, 229, 187, 82, 28, 102, 102, 213, 157, 79, 101, 176] secretChainStep16]
  rw [spec_fold_step 281474976710655 ([177, 152, 217, 207, 21, 152, 131, 24, 78, 46, 247, 188, 231, 108, 62, 234, 224, 193, 46, 208, 215, 229, 187, 82, 28, 102, 102, 213, 157, 79, 101, 176]) 15 [14, 13, 12, 11, 10, 9, 8, 7, 6, 5, 4, 3, 2, 1, 0] (by decide) [152, 122, 106, 112, 81, 227, 6, 185, 79, 124, 135, 83, 106, 161, 233, 22, 189, 38, 184, 14, 141, 217, 139, 217, 182, 153, 23, 25, 110, 49, 168, 94] secretChainStep15]
  rw [spec_fold_step 281474976710655 ([152, 122, 106, 112, 81, 227, 6, 185, 79, 124, 135, 83, 106, 161, 233, 22, 189, 38, 184, 14, 141, 217, 139, 217, 182, 153, 23, 25, 110, 49, 168, 94]) 14 [13, 12, 11, 10, 9, 8, 7, 6, 5, 4, 3, 2, 1, 0] (by decide) [93, 148, 59, 89, 0, 26, 23, 236, 5, 80, 24, 215, 247, 114, 253, 117, 62, 70, 18, 199, 243, 240, 156, 131, 73, 21, 180, 171, 61, 125, 247, 169] secretChainStep14]
  rw [spec_fold_step 281474976710655 ([93, 148, 59, 89, 0, 26, 23, 236, 5, 80, 24, 215, 247, 114, 253, 117, 62, 70, 18, 199, 243, 240, 156, 131, 73, 21, 180, 171, 61, 125, 247, 169]) 13 [12, 11, 10, 9, 8, 7, 6, 5, 4, 3, 2, 1, 0] (by decide) [227, 5, 123, 103, 179, 20, 114, 16, 14, 100, 173, 236, 231, 234, 175, 84, 51, 247, 213, 121, 13, 25, 22, 124, 53, 27, 15, 180, 68, 219, 124, 102] secretChainStep13]
  rw [spec_fold_step 281474976710655 ([227, 5, 123, 103, 179, 20, 114, 16, 14, 100, 173, 236, 231, 234, 175, 84, 51, 247, 213, 121, 13, 25, 22, 124, 53, 27, 15, 180, 68, 219, 124, 102]) 12 [11, 10, 9, 8, 7, 6, 5, 4, 3, 2, 1, 0] (by decide) [165, 58, 224, 133, 151, 231, 229, 58, 231, 124, 73, 78, 40, 169, 88, 247, 154, 250, 189, 18, 227, 225, 245, 36, 242, 122, 211, 143, 187, 165, 166, 31] secretChainStep12]
  rw [spec_fold_step 281474976710655 ([165, 58, 224, 133, 151, 231, 229, 58, 231, 124, 73, 78, 40, 169, 88, 247, 154, 250, 189, 18, 227, 225, 245, 36, 242, 122, 211, 143, 187, 165, 166, 31]) 11 [10, 9, 8, 7, 6, 5, 4, 3, 2, 1, 0] (by decide) [226, 108, 197, 157, 43, 254, 163, 38, 117, 90, 145, 6, 176, 1, 163, 235, 49, 250, 5, 16, 18, 56, 203, 227, 110, 250, 70, 132, 193, 227, 165, 50] secretChainStep11]
  rw [spec_fold_step 281474976710655 ([226, 108, 197, 157, 43, 254, 163, 38, 117, 90, 145, 6, 176, 1, 163, 235, 49, 250, 5, 16, 18, 56, 203, 227, 110, 250, 70, 132, 193, 227, 165, 50]) 10 [9, 8, 7, 6, 5, 4, 3, 2, 1, 0] (by decide) [91, 79, 89, 212, 8, 131, 162, 220, 89, 250, 215, 242, 252, 70, 249, 123, 30, 140, 143, 206, 5, 34, 227, 57, 223, 134, 46, 174, 140, 101, 151, 63] secretChainStep10]
  rw [spec_fold_step 281474976710655 ([91, 79, 89, 212, 8, 131, 162, 220, 89, 250, 215, 242, 252, 70, 249, 123, 30, 140, 143, 206, 5, 34, 227, 57, 223, 134, 46, 174, 140, 101, 151, 63]) 9 [8, 7, 6, 5, 4, 3, 2, 1, 0] (by decide) [58, 153, 61, 55, 180, 188, 6, 47, 145, 113, 73, 155, 148, 184, 86, 228, 78, 53, 240, 158, 26, 58, 160, 131, 32, 220, 137, 184, 242, 78, 215, 226] secretChainStep9]
  rw [spec_fold_step 281474976710655 ([58, 153, 61, 55, 180, 188, 6, 47, 145, 113, 73, 155, 148, 184, 86, 228, 78, 53, 240, 158, 26, 58, 160, 131, 32, 220, 137, 184, 242, 78, 215, 226]) 8 [7, 6, 5, 4, 3, 2, 1, 0] (by decide) [92, 8, 163, 158, 201, 60, 170, 177, 152, 142, 118, 160, 13, 221, 139, 199, 109, 138, 32, 249, 105, 249, 86, 132, 16, 230, 129, 79, 4, 90, 252, 97] secretChainStep8]
  rw [spec_fold_step 281474976710655 ([92, 8, 163, 158, 201, 60, 170, 177, 152, 142, 118, 160, 13, 221, 139, 199, 109, 138, 32, 249, 105, 249, 86, 132, 16, 230, 129, 79, 4, 90, 252, 97]) 7 [6, 5, 4, 3, 2, 1, 0] (by decide) [107, 131, 38, 146, 238, 90, 76, 152, 63, 55, 248, 17, 163, 162, 211, 57, 110, 152, 21, 234, 198, 48, 222, 44, 203, 148, 178, 63, 19, 179, 120, 144] secretChainStep7]
  rw [spec_fold_step 281474976710655 ([107, 131, 38, 146, 238, 90, 76, 152, 63, 55, 248, 17, 163, 162, 211, 57, 110, 152, 21, 234, 198, 48, 222, 44, 203, 148, 178, 63, 19, 179, 120, 144]) 6 [5, 4, 3, 2, 1, 0] (by decide) [91, 176, 76, 159, 18, 39, 232, 107, 157, 55, 1, 186, 169, 55, 15, 83, 188, 187, 142, 245, 208, 22, 170, 249, 227, 102, 172, 227, 151, 42, 220, 153] secretChainStep6]
  rw [spec_fold_step 281474976710655 ([91, 176, 76, 159, 18, 39, 232, 107, 157, 55, 1, 186, 169, 55, 15, 83, 188, 187, 142, 245, 208, 22, 170, 249, 227, 102, 172, 227, 151, 42, 220, 153]) 5 [4, 3, 2, 1, 0] (by decide) [111, 164, 149, 127, 70, 204, 181, 54, 94, 128, 5, 232, 217, 51, 60, 111, 140, 224, 12, 166, 40, 223, 96, 154, 176, 19, 58, 94, 108, 63, 60, 48] secretChainStep5]
  rw [spec_fold_step 281474976710655 ([111, 164, 149, 127, 70, 204, 181, 54, 94, 128, 5, 232, 217, 51, 60, 111, 140, 224, 12, 166, 40, 223, 96, 154, 176, 19, 58, 94, 108, 63, 60, 48]) 4 [3, 2, 1, 0] (by decide) [230, 221, 56, 71, 155, 133, 161, 119, 0, 130, 248, 205, 148, 239, 63, 66, 20, 84, 67, 27, 119, 161, 166, 119, 49, 30, 113, 179, 173, 239, 140, 115] secretChainStep4]
  rw [spec_fold_step 281474976710655 ([230, 221, 56, 71, 155, 133, 161, 119, 0, 130, 248, 205, 148, 239, 63, 66, 20, 84, 67, 27, 119, 161, 166, 119, 49, 30, 113, 179, 173, 239, 140, 115]) 3 [2, 1, 0] (by decide) [167, 239, 188, 97, 170, 196, 109, 52, 247, 119, 120, 186, 194, 44, 138, 32, 198, 164, 108, 164, 96, 173, 220, 73, 0, 155, 218, 135, 94, 200, 143, 164] secretChainStep3]
  rw [spec_fold_step 281474976710655 ([167, 239, 188, 97, 170, 196, 109, 52, 247, 119, 120, 186, 194, 44, 138, 32, 198, 164, 108, 164, 96, 173, 220, 73, 0, 155, 218, 135, 94, 200, 143, 164]) 2 [1, 0] (by decide) [186, 101, 215, 176, 239, 85, 163, 186, 48, 13, 78, 135, 175, 41, 134, 143, 57, 79, 143, 19, 141, 120, 167, 1, 22, 105, 199, 155, 55, 185, 54, 244] secretChainStep2]
  rw [spec_fold_step 281474976710655 ([186, 101, 215, 176, 239, 85, 163, 186, 48, 13, 78, 135, 175, 41, 134, 143, 57, 79, 143, 19, 141, 120, 167, 1, 22, 105, 199, 155, 55, 185, 54, 244]) 1 [0] (by decide) [221, 220, 58, 141, 20, 253, 223, 43, 104, 250, 140, 127, 186, 210, 116, 130, 116, 147, 116, 121, 221, 15, 137, 48, 213, 235, 180, 171, 107, 216, 102, 163] secretChainStep1]
  rw [spec_fold_step 281474976710655 ([221, 220, 58, 141, 20, 253, 223, 43, 104, 250, 140, 127, 186, 210, 116, 130, 116, 147, 116, 121, 221, 15, 137, 48, 213, 235, 180, 171, 107, 216, 102, 163]) 0 [] (by decide) [2, 164, 12, 133, 182, 242, 141, 160, 141, 253, 190, 9, 38, 197, 63, 171, 45, 230, 210, 140, 16, 48, 31, 143, 124, 64, 115, 213, 228, 46, 49, 72] secretChainStep0]
  rw [List.foldl_nil]

end PLPC
